import Mathlib

/-!
Verification development for the persona-conditioned survey simulation
pipeline: shallow embeddings of the response parsers
(`AIAgent._extract_score` / `_extract_reasoning`,
`EnhancedAIAgent._parse_survey_response`,
`DigitalTwinSurveySystem._get_survey_response`), the persona-context
builders, the confidence estimators, the batch orchestrators
(`SurveySystem.conduct_survey`, `DigitalTwinSurveySystem.conduct_survey`)
and the result aggregator (`ResultsManager.analyze_survey_results`),
together with theorems settling the specification's claims about them.

Modelling conventions:
* Python strings are Lean `String`s (lists of Unicode code points);
  `len`, slicing and `in` are length, `take` and substring search on the
  character list.
* The regular expressions used by the parsers are small and fixed, so each
  one is embedded as an explicit scanning function with the same
  match/backtracking behaviour on the alphabet the system uses (ASCII,
  Hangul syllables, the fullwidth colon).  Python's `\w` class is modelled
  for that alphabet.
* Python floats in the confidence heuristics are modelled as exact
  rationals.  Every constant is a small decimal, every addend is
  non-negative, and the checked claims are inequalities that are stable
  under this modelling (adding a non-negative value is monotone in IEEE
  float arithmetic as well).
* The external chat-completion backend is the explicit `invoke` parameter
  returning `Except TransportError String`; `Except.error` models a raised
  transport exception.  Python's per-process salted string `hash` is the
  explicit `hash : String → Nat` parameter.
* Wall-clock timestamps, console output, progress bars and `time.sleep`
  are outside the model.
-/

namespace SurveySim

/-- Python regex `\s` white-space class (the ASCII part; the texts handled
by the system contain no exotic Unicode spaces). -/
def pySpace (c : Char) : Bool :=
  c = ' ' || c = '\t' || c = '\n' || c = '\r' || c = '\x0b' || c = '\x0c'

/-- ASCII decimal digit, Python regex `\d` on the modelled alphabet. -/
def isAsciiDigit (c : Char) : Bool :=
  decide (48 ≤ c.toNat) && decide (c.toNat ≤ 57)

/-- The regex character class `[1-7]` (code points 49..55). -/
def isDigit17 (c : Char) : Bool :=
  decide (49 ≤ c.toNat) && decide (c.toNat ≤ 55)

/-- Hangul syllable block, the only non-ASCII letters occurring in the
prompts and responses of this system. -/
def isHangul (c : Char) : Bool :=
  decide (0xAC00 ≤ c.toNat) && decide (c.toNat ≤ 0xD7A3)

/-- Python regex `\w` word-character class, restricted to the alphabet used
by the system: ASCII alphanumerics, underscore, Hangul syllables. -/
def isWordChar (c : Char) : Bool :=
  c.isAlphanum || c = '_' || isHangul c

/-- Model of `dropWhile` over white-space: the effect of a greedy `\s*`. -/
def dropSpacesL (l : List Char) : List Char := l.dropWhile pySpace

/-- Python `str.strip` on a character list. -/
def pyStripL (l : List Char) : List Char :=
  ((l.dropWhile pySpace).reverse.dropWhile pySpace).reverse

/-- Python `str.strip`. -/
def pyStrip (s : String) : String := String.mk (pyStripL s.toList)

/-- Numeric value of an ASCII digit. -/
def digitVal (c : Char) : Nat := c.toNat - 48

/-- Value of a digit run, Python `int` on a digit string. -/
def digitsToNat (l : List Char) : Nat := l.foldl (fun a c => 10 * a + digitVal c) 0

/-- Does the list start with the given segment? -/
def startsWithL : List Char → List Char → Bool
  | [], _ => true
  | _ :: _, [] => false
  | a :: xs, b :: ys => a = b && startsWithL xs ys

/-- Substring occurrence on character lists. -/
def containsSubL (needle : List Char) : List Char → Bool
  | [] => needle.isEmpty
  | c :: rest => startsWithL needle (c :: rest) || containsSubL needle rest

/-- Python `needle in haystack` on strings. -/
def containsSub (hay needle : String) : Bool := containsSubL needle.toList hay.toList

/-- Python `str.isdigit` (modelled for the ASCII digits the ids use). -/
def isAllDigits (s : String) : Bool := !s.isEmpty && s.toList.all isAsciiDigit

/-- One attempt of `점수\s*[:：]\s*(\d+)` anchored at the head of the list
(used by `AIAgent._extract_score`): literal `점수`, optional spaces, ASCII or
fullwidth colon, optional spaces, a non-empty digit run. -/
def matchScoreTagA : List Char → Option Nat
  | '점' :: '수' :: rest =>
    match dropSpacesL rest with
    | c :: r2 =>
      if c = ':' || c = '：' then
        let r3 := dropSpacesL r2
        let ds := r3.takeWhile isAsciiDigit
        if ds.isEmpty then none else some (digitsToNat ds)
      else none
    | [] => none
  | _ => none

/-- Model of `re.search` scan for `점수\s*[:：]\s*(\d+)`: first position where the
whole pattern matches. -/
def searchScoreTagA : List Char → Option Nat
  | [] => none
  | c :: rest =>
    match matchScoreTagA (c :: rest) with
    | some n => some n
    | none => searchScoreTagA rest

/-- Model of `re.search` scan for `\b([1-7])\b`: first stand-alone digit 1-7.
`prevWord` records whether the previous character is a word character
(digits are word characters, so a boundary precedes the digit exactly when
the previous character is not one). -/
def searchDigit17 (prevWord : Bool) : List Char → Option Nat
  | [] => none
  | c :: rest =>
    if isDigit17 c && !prevWord &&
        (match rest with | [] => true | d :: _ => !isWordChar d) then
      some (digitVal c)
    else searchDigit17 (isWordChar c) rest

/-- Model of `re.findall(r'\b[1-7]\b', ·)`: every stand-alone digit 1-7, left to
right (used by `DigitalTwinSurveySystem._get_survey_response`). -/
def findAllDigit17 (prevWord : Bool) : List Char → List Nat
  | [] => []
  | c :: rest =>
    if isDigit17 c && !prevWord &&
        (match rest with | [] => true | d :: _ => !isWordChar d) then
      digitVal c :: findAllDigit17 true rest
    else findAllDigit17 (isWordChar c) rest

/-- Model of `AIAgent._extract_score`: the strict `점수:` tag is accepted only when
its value lies in 1..7; otherwise the first stand-alone digit 1-7;
otherwise `None`. -/
def extractScore (response : String) : Option Nat :=
  match searchScoreTagA response.toList with
  | some n => if 1 ≤ n ∧ n ≤ 7 then some n else searchDigit17 false response.toList
  | none => searchDigit17 false response.toList

/-- Shared tail of `(?:이유|설명)\s*[:：]\s*(.+)` (DOTALL) after the
keyword: optional spaces, a colon, then at least one further character;
the stripped group is everything after the colon (greedy `\s*(.+)` with
backtracking followed by `.strip()` collapses to `strip` of that tail). -/
def matchColonTail (rest : List Char) : Option (List Char) :=
  match dropSpacesL rest with
  | c :: r2 =>
    if c = ':' || c = '：' then
      if r2.isEmpty then none else some (pyStripL r2)
    else none
  | [] => none

/-- One anchored attempt of `(?:이유|설명)\s*[:：]\s*(.+)` (DOTALL). -/
def matchReasonTagA : List Char → Option (List Char)
  | '이' :: '유' :: rest => matchColonTail rest
  | '설' :: '명' :: rest => matchColonTail rest
  | _ => none

/-- Model of `re.search` scan for `(?:이유|설명)\s*[:：]\s*(.+)` (DOTALL). -/
def searchReasonTagA : List Char → Option (List Char)
  | [] => none
  | c :: rest =>
    match matchReasonTagA (c :: rest) with
    | some g => some g
    | none => searchReasonTagA rest

/-- One anchored attempt of `점수\s*[:：]\s*\d+\s*(.+)` (DOTALL).  When the
digit run reaches the end of the string the greedy `\d+` backtracks one
digit so that `(.+)` can still match, which needs at least two digits. -/
def matchScoreTailA : List Char → Option (List Char)
  | '점' :: '수' :: rest =>
    match dropSpacesL rest with
    | c :: r2 =>
      if c = ':' || c = '：' then
        let r3 := dropSpacesL r2
        let ds := r3.takeWhile isAsciiDigit
        let after := r3.drop ds.length
        if ds.isEmpty then none
        else if after.isEmpty then
          if 2 ≤ ds.length then some [ds.getLastD '0'] else none
        else some (pyStripL after)
      else none
    | [] => none
  | _ => none

/-- Model of `re.search` scan for `점수\s*[:：]\s*\d+\s*(.+)` (DOTALL). -/
def searchScoreTailA : List Char → Option (List Char)
  | [] => none
  | c :: rest =>
    match matchScoreTailA (c :: rest) with
    | some g => some g
    | none => searchScoreTailA rest

/-- Model of `AIAgent._extract_reasoning`: text after `이유:`/`설명:`, else text
after a `점수: <n>` tag, else the whole (stripped) response. -/
def extractReasoning (response : String) : String :=
  match searchReasonTagA response.toList with
  | some g => String.mk g
  | none =>
    match searchScoreTailA response.toList with
    | some g => String.mk g
    | none => pyStrip response

example : extractScore "점수: 5\n이유: 좋아요" = some 5 := by decide
example : extractScore "점수: 12" = none := by decide
example : extractScore "대략 6 정도요" = some 6 := by decide
example : extractScore "잘 모르겠어요" = none := by decide
example : extractScore "6점입니다" = none := by decide
example : extractReasoning "점수: 5\n이유: 좋아요" = "좋아요" := by decide
example : extractReasoning "점수: 55" = "5" := by decide
example : extractReasoning "그냥 그래요" = "그냥 그래요" := by decide

/-- A persona as the agents read it: its id and the optional
`persona_summary` entry of its data map. -/
structure Persona where
  id : String
  personaSummary : Option String
deriving Repr, DecidableEq

/-- A failure of the external backend call (network failure, timeout,
rate-limit, HTTP error), raised by the client library and modelled as the
`Except.error` result of `invoke`. -/
structure TransportError where
  code : Nat
  message : String
deriving Repr, DecidableEq

/-- Model of `persona_id = int(persona.id) if persona.id.isdigit() else
hash(persona.id) % 1000`.  Python's string `hash` is salted per interpreter
run; it enters the model as the explicit `hash` parameter. -/
def personaNum (hash : String → Nat) (id : String) : Nat :=
  if isAllDigits id then digitsToNat id.toList else hash id % 1000

def ageGroups : List String :=
  ["20대 초반", "20대 후반", "30대 초반", "30대 후반", "40대 초반", "40대 후반", "50대", "60대"]

def occupations : List String :=
  ["사무직", "IT개발자", "마케터", "교사", "의사", "예술가", "판매원", "자영업자", "연구원", "디자이너"]

def personalities : List String :=
  ["외향적이고 사교적", "내향적이고 신중", "창의적이고 개방적", "체계적이고 완벽주의", "낙천적이고 유연", "분석적이고 논리적", "감성적이고 직관적"]

def interests : List String :=
  ["기술과 IT", "예술과 문화", "스포츠와 건강", "여행과 모험", "독서와 학습", "음악과 영화", "게임과 엔터테인먼트", "요리와 생활"]

/-- The `tech_preference` conditional chain of `AIAgent._build_persona_context`. -/
def techPreference (pid : Nat) : String :=
  if pid % 5 = 0 then "애플 매니아"
  else if pid % 5 = 1 then "삼성 팬"
  else if pid % 5 = 2 then "중립적"
  else if pid % 5 = 3 then "가성비 중시"
  else "최신 기술 추구"

/-- The `spending_style` conditional chain. -/
def spendingStyle (pid : Nat) : String :=
  if pid % 6 = 0 then "극도 절약형"
  else if pid % 6 = 1 then "절약형"
  else if pid % 6 = 2 then "적당형"
  else if pid % 6 = 3 then "소비형"
  else if pid % 6 = 4 then "프리미엄형"
  else "럭셔리형"

/-- The `tech_savviness` conditional chain. -/
def techSavviness (pid : Nat) : String :=
  if pid % 3 = 0 then "기술 초보"
  else if pid % 3 = 1 then "보통 수준"
  else "기술 고수"

/-- The `brand_loyalty` conditional chain. -/
def brandLoyalty (pid : Nat) : String :=
  if pid % 4 = 0 then "브랜드 충성도 높음"
  else if pid % 4 = 1 then "브랜드 충성도 보통"
  else if pid % 4 = 2 then "브랜드 충성도 낮음"
  else "브랜드 무관심"

/-- Model of `summary[:200] + "..."` truncation applied to long persona summaries. -/
def truncate200 (s : String) : String :=
  if 200 < s.length then String.mk (s.toList.take 200) ++ "..." else s

/-- The `개인 배경: ...` line appended when `persona_summary` is present
and truthy (the basic agent prefixes it with `- `, the enhanced one not). -/
def summaryLines (label : String) (prior : List String) (ps : Option String) : List String :=
  match ps with
  | some s => if s.isEmpty then prior else prior ++ [label ++ truncate200 s]
  | none => prior

/-- Model of `AIAgent._build_persona_context`: derived traits indexed by
`persona_id mod len(trait_list)`, then the optional persona summary. -/
def buildPersonaContext (hash : String → Nat) (p : Persona) : String :=
  let pid := personaNum hash p.id
  let parts := ["당신은 다음과 같은 특성을 가진 사람입니다:\n",
    "- 나이: " ++ ageGroups.getD (pid % ageGroups.length) "",
    "- 직업: " ++ occupations.getD (pid % occupations.length) "",
    "- 성격: " ++ personalities.getD (pid % personalities.length) "",
    "- 관심사: " ++ interests.getD (pid % interests.length) "",
    "- 기술 선호도: " ++ techPreference pid,
    "- 소비 성향: " ++ spendingStyle pid,
    "- 기술 숙련도: " ++ techSavviness pid,
    "- 브랜드 충성도: " ++ brandLoyalty pid]
  String.intercalate "\n" (summaryLines "- 개인 배경: " parts p.personaSummary)

/-- The system prompt of `AIAgent.respond_to_survey_question`. -/
def systemPromptSurvey (personaContext scaleDescription : String) : String :=
  "당신은 설문조사에 참여하는 응답자입니다.\n주어진 페르소나의 특성과 배경을 바탕으로 설문 질문에 진정성 있게 답변해야 합니다.\n\n"
    ++ personaContext
    ++ "\n\n답변 형식:\n- 반드시 1부터 7까지의 숫자 중 하나로 응답하세요.\n- 척도: "
    ++ scaleDescription
    ++ "\n- 답변 이유를 간단히 설명하세요 (1-2문장).\n\n응답 형식 예시:\n점수: 5\n이유: [당신의 특성을 고려한 간단한 설명]\n"

/-- The response dictionary of `AIAgent.respond_to_survey_question`
(`error` is absent on success, `score`/`reasoning`/`raw_response` are
`None` on failure). -/
structure SurveyReply where
  personaId : String
  question : String
  score : Option Nat
  reasoning : Option String
  error : Option String
  rawResponse : Option String
deriving Repr, DecidableEq

/-- Model of `AIAgent.respond_to_survey_question`: build the persona context and
prompts, invoke the backend, parse on success, and on a raised transport
error return the failure dictionary — the exception never escapes. -/
def respondToSurveyQuestion (invoke : String → String → Except TransportError String)
    (hash : String → Nat) (p : Persona) (question scaleDescription : String) : SurveyReply :=
  match invoke (systemPromptSurvey (buildPersonaContext hash p) scaleDescription)
      ("질문: " ++ question) with
  | .ok raw =>
    let content := pyStrip raw
    { personaId := p.id, question := question, score := extractScore content,
      reasoning := some (extractReasoning content), error := none,
      rawResponse := some content }
  | .error e =>
    { personaId := p.id, question := question, score := none,
      reasoning := none, error := some e.message, rawResponse := none }

/-- A survey question of `survey_system.SurveyQuestion`. -/
structure SurveyQuestion where
  questionId : String
  text : String
  scaleDescription : String
  category : Option String
deriving Repr, DecidableEq

/-- A survey of `survey_system.Survey` (creation timestamp outside the model). -/
structure Survey where
  title : String
  questions : List SurveyQuestion
deriving Repr, DecidableEq

/-- One collected response after `response.update({...})` in
`SurveySystem.conduct_survey` (timestamp outside the model). -/
structure SurveyRecord where
  personaId : String
  question : String
  score : Option Nat
  reasoning : Option String
  error : Option String
  rawResponse : Option String
  surveyTitle : String
  questionId : String
  category : Option String
deriving Repr, DecidableEq

/-- The record appended for one (persona, question) cell:
`respond_to_survey_question` output plus the survey metadata. -/
def mkSurveyRecord (invoke : String → String → Except TransportError String)
    (hash : String → Nat) (survey : Survey) (p : Persona) (q : SurveyQuestion) : SurveyRecord :=
  let r := respondToSurveyQuestion invoke hash p q.text q.scaleDescription
  { personaId := r.personaId, question := r.question, score := r.score,
    reasoning := r.reasoning, error := r.error, rawResponse := r.rawResponse,
    surveyTitle := survey.title, questionId := q.questionId, category := q.category }

/-- Model of `SurveySystem.conduct_survey`: the sequential persona × question double
loop, appending exactly one record per cell (progress display and the
rate-limit sleep are outside the model). -/
def conductSurvey (invoke : String → String → Except TransportError String)
    (hash : String → Nat) (survey : Survey) (personas : List Persona) : List SurveyRecord :=
  personas.foldl
    (fun acc p => survey.questions.foldl
      (fun acc2 q => acc2 ++ [mkSurveyRecord invoke hash survey p q]) acc)
    []

def genders3 : List String := ["남성", "여성", "기타"]

def regions9 : List String := ["서울", "경기", "부산", "대구", "광주", "대전", "울산", "세종", "기타"]

def educations4 : List String := ["고졸", "대졸", "대학원", "박사"]

def incomes4 : List String := ["저소득", "중소득", "고소득", "최고소득"]

/-- Model of `EnhancedAIAgent._get_enhanced_demographics`. -/
def getEnhancedDemographics (pid : Nat) : String :=
  ageGroups.getD (pid % ageGroups.length) "" ++ ", "
    ++ genders3.getD (pid % genders3.length) "" ++ ", "
    ++ regions9.getD (pid % regions9.length) "" ++ ", "
    ++ educations4.getD (pid % educations4.length) "" ++ ", "
    ++ incomes4.getD (pid % incomes4.length) "" ++ ", "
    ++ occupations.getD (pid % occupations.length) ""

def primaryTraits8 : List String :=
  ["외향적이고 사교적", "내향적이고 신중", "창의적이고 개방적", "체계적이고 완벽주의", "낙천적이고 유연", "분석적이고 논리적", "감성적이고 직관적", "경쟁적이고 야심적"]

def secondaryTraits8 : List String :=
  ["협력적", "독립적", "혁신적", "전통적", "모험적", "안정적", "이상주의적", "현실적"]

/-- Model of `EnhancedAIAgent._get_enhanced_personality`. -/
def getEnhancedPersonality (pid : Nat) : String :=
  primaryTraits8.getD (pid % primaryTraits8.length) "" ++ ", "
    ++ secondaryTraits8.getD ((pid + 1) % secondaryTraits8.length) ""

def techPrefs8 : List String :=
  ["애플 매니아", "삼성 팬", "구글 픽셀 선호", "중립적", "가성비 중시", "최신 기술 추구", "브랜드 무관심", "안정성 중시"]

def spendingList6 : List String :=
  ["극도 절약형", "절약형", "적당형", "소비형", "프리미엄형", "럭셔리형"]

def lifestylesPref6 : List String :=
  ["미니멀", "활동적", "편안함 추구", "도전적", "전통적", "혁신적"]

/-- Model of `EnhancedAIAgent._get_enhanced_preferences`: the brand-loyalty level
`persona_id % 4` couples the brand text with the indexed tech preference. -/
def getEnhancedPreferences (pid : Nat) : String :=
  let techAndBrand :=
    if pid % 4 = 0 then
      (techPrefs8.getD (pid % 3) "", "브랜드 충성도 높음 (특정 브랜드 선호)")
    else if pid % 4 = 1 then
      (techPrefs8.getD (3 + pid % 3) "", "브랜드 충성도 보통 (선호 브랜드 있음)")
    else if pid % 4 = 2 then
      (techPrefs8.getD (6 + pid % 2) "", "브랜드 충성도 낮음 (브랜드 무관심)")
    else ("기능 중심", "브랜드 완전 무관심 (기능만 중시)")
  "기술: " ++ techAndBrand.1
    ++ ", 소비: " ++ spendingList6.getD (pid % spendingList6.length) ""
    ++ ", 브랜드: " ++ techAndBrand.2
    ++ ", 라이프스타일: " ++ lifestylesPref6.getD (pid % lifestylesPref6.length) ""

def careersE6 : List String := ["신입", "경력 3-5년", "경력 10년+", "전문가", "리더", "은퇴"]

def industriesE10 : List String :=
  ["IT", "금융", "제조", "서비스", "교육", "의료", "예술", "스포츠", "정부", "비영리"]

def lifestylesExp6 : List String := ["싱글", "커플", "가족", "대가족", "독신", "동거"]

def interestsE10 : List String :=
  ["기술", "예술", "스포츠", "여행", "독서", "음악", "게임", "요리", "사진", "운동"]

/-- Model of `EnhancedAIAgent._get_enhanced_experiences`. -/
def getEnhancedExperiences (pid : Nat) : String :=
  "경력: " ++ careersE6.getD (pid % careersE6.length) ""
    ++ ", 업계: " ++ industriesE10.getD (pid % industriesE10.length) ""
    ++ ", 라이프스타일: " ++ lifestylesExp6.getD (pid % lifestylesExp6.length) ""
    ++ ", 관심사: " ++ interestsE10.getD (pid % interestsE10.length) ""

def valuesE8 : List String :=
  ["성공과 성취", "가족과 관계", "자유와 독립", "안정과 보안", "창의와 혁신", "전통과 질서", "평등과 정의", "개인적 성장"]

/-- Model of `EnhancedAIAgent._get_enhanced_values`. -/
def getEnhancedValues (pid : Nat) : String :=
  valuesE8.getD (pid % valuesE8.length) "" ++ ", " ++ valuesE8.getD ((pid + 2) % valuesE8.length) ""

/-- Model of `EnhancedAIAgent._build_enhanced_persona_context`. -/
def buildEnhancedPersonaContext (hash : String → Nat) (p : Persona) : String :=
  let pid := personaNum hash p.id
  let parts := ["인구통계: " ++ getEnhancedDemographics pid,
    "성격 특성: " ++ getEnhancedPersonality pid,
    "선호도: " ++ getEnhancedPreferences pid,
    "경험 배경: " ++ getEnhancedExperiences pid,
    "가치관: " ++ getEnhancedValues pid]
  String.intercalate "\n" (summaryLines "개인 배경: " parts p.personaSummary)

/-- Model of `EnhancedAIAgent._create_enhanced_survey_prompt`. -/
def createEnhancedSurveyPrompt (personaContext question questionType : String)
    (smin smax : Int) (context : String) (options : Option (List String)) : String :=
  let base := "\n당신은 " ++ personaContext
    ++ " 특성을 가진 실제 사람입니다.\n\n컨텍스트: " ++ context
    ++ "\n\n질문: " ++ question
    ++ "\n\n중요한 지침:\n1. 당신의 고유한 성격, 경험, 가치관을 바탕으로 답변하세요\n2. 다른 사람과 똑같은 답변을 하지 마세요\n3. 당신만의 개별적인 관점과 경험을 반영하세요\n4. 일관성 있게 답변하세요 (예: 브랜드 충성도가 높으면 높은 점수, 낮으면 낮은 점수)\n"
  if questionType = "likert" then
    base ++ "\n\n" ++ toString smin ++ "점(전혀 동의하지 않음)부터 " ++ toString smax
      ++ "점(완전히 동의함)까지의 척도로 답변해주세요.\n\n당신의 브랜드 선호도, 소비 성향, 기술 수준에 따라 일관성 있게 점수를 선택하세요:\n- 브랜드 충성도가 높으면 높은 점수 (5-7점)\n- 브랜드 충성도가 낮으면 낮은 점수 (1-4점)\n- 브랜드 무관심이면 중간 점수 (3-5점)\n\n응답 형식:\n점수: [1-7 사이의 숫자]\n이유: [당신만의 구체적인 이유와 개인적 경험]\n"
  else if questionType = "multiple_choice" then
    match options with
    | some opts =>
      if opts.isEmpty then base
      else base
        ++ "\n\n다음 선택지 중에서 당신의 개인적 경험과 선호도를 바탕으로 가장 적합한 것을 선택해주세요:\n"
        ++ String.intercalate "\n" (opts.map (fun o => "- " ++ o))
        ++ "\n\n당신의 고유한 특성과 경험을 바탕으로 선택하고 그 이유를 설명해주세요.\n"
    | none => base
  else if questionType = "open_ended" then
    base ++ "\n\n자유롭게 답변해주세요. 당신의 개인적인 경험, 의견, 감정을 포함하여 진정성 있고 고유한 답변을 해주세요.\n"
  else base

/-- One anchored attempt of `점수:\s*(\d+)` (the enhanced parser's pattern:
no space before the colon, ASCII colon only). -/
def matchScoreTagE : List Char → Option Nat
  | '점' :: '수' :: ':' :: rest =>
    let r := dropSpacesL rest
    let ds := r.takeWhile isAsciiDigit
    if ds.isEmpty then none else some (digitsToNat ds)
  | _ => none

/-- Model of `re.search` scan for `점수:\s*(\d+)`. -/
def searchScoreTagE : List Char → Option Nat
  | [] => none
  | c :: rest =>
    match matchScoreTagE (c :: rest) with
    | some n => some n
    | none => searchScoreTagE rest

/-- One anchored attempt of `이유:\s*(.+)` (no DOTALL: `.` stops at a
newline).  A greedy `\s*` runs to the first non-space character and the
group is the rest of that line; when only white-space follows, backtracking
still succeeds on a trailing non-newline white-space character, and the
subsequent `.strip()` collapses the group to the empty string. -/
def matchReasonTagE : List Char → Option (List Char)
  | '이' :: '유' :: ':' :: rest =>
    let u := dropSpacesL rest
    if u.isEmpty then
      if rest.any (fun c => c != '\n') then some [] else none
    else some (pyStripL (u.takeWhile (fun c => c != '\n')))
  | _ => none

/-- Model of `re.search` scan for `이유:\s*(.+)`. -/
def searchReasonTagE : List Char → Option (List Char)
  | [] => none
  | c :: rest =>
    match matchReasonTagE (c :: rest) with
    | some g => some g
    | none => searchReasonTagE rest

/-- Model of `re.sub(r'점수:\s*\d+\s*\n?', '', ·)`: remove every `점수:` tag together
with its digits and the following white-space run (the greedy `\s*` already
covers the optional newline).  The fuel is the input length; each step
consumes at least one character, so fuel never runs out. -/
def subScoreTagAux : Nat → List Char → List Char
  | 0, l => l
  | _ + 1, [] => []
  | fuel + 1, '점' :: '수' :: ':' :: rest =>
    let r := dropSpacesL rest
    let ds := r.takeWhile isAsciiDigit
    if ds.isEmpty then '점' :: subScoreTagAux fuel ('수' :: ':' :: rest)
    else subScoreTagAux fuel (dropSpacesL (r.drop ds.length))
  | fuel + 1, c :: rest => c :: subScoreTagAux fuel rest

def subScoreTag (l : List Char) : List Char := subScoreTagAux l.length l

/-- Model of `re.sub(r'이유:\s*', '', ·)`. -/
def subReasonTagAux : Nat → List Char → List Char
  | 0, l => l
  | _ + 1, [] => []
  | fuel + 1, '이' :: '유' :: ':' :: rest => subReasonTagAux fuel (dropSpacesL rest)
  | fuel + 1, c :: rest => c :: subReasonTagAux fuel rest

def subReasonTag (l : List Char) : List Char := subReasonTagAux l.length l

/-- The dictionary returned by `EnhancedAIAgent._parse_survey_response`
(a missing `score` key is `none`). -/
structure ParsedSurvey where
  response : String
  score : Option Int
  reasoning : String
deriving Repr, DecidableEq

/-- Model of `EnhancedAIAgent._parse_survey_response`: for Likert, extract the
`점수:` tag and clamp it into `[smin, smax]` via `max(min_, min(max_, s))`,
extract the `이유:` text (whole response when absent), and when both tags
matched also strip them out of the `response` text.  For every other
question type the raw text is passed through unchanged — there is no
option matching of any kind. -/
def parseSurveyResponse (aiResponse questionType : String) (smin smax : Int) : ParsedSurvey :=
  if questionType = "likert" then
    let scoreRaw := searchScoreTagE aiResponse.toList
    let score : Option Int := scoreRaw.map (fun n => max smin (min smax (n : Int)))
    let reasonRaw := searchReasonTagE aiResponse.toList
    let reasoning := match reasonRaw with
      | some g => String.mk g
      | none => aiResponse
    let clean := match scoreRaw, reasonRaw with
      | some _, some _ => pyStrip (String.mk (subReasonTag (subScoreTag aiResponse.toList)))
      | _, _ => aiResponse
    { response := clean, score := score, reasoning := reasoning }
  else
    { response := aiResponse, score := none, reasoning := aiResponse }

example : parseSurveyResponse "점수: 5\n이유: 무난해요" "likert" 1 7 =
    { response := "무난해요", score := some 5, reasoning := "무난해요" } := by decide
example : parseSurveyResponse "점수: 12\n이유: 최고" "likert" 1 7 =
    { response := "최고", score := some 7, reasoning := "최고" } := by decide
example : parseSurveyResponse "가격이요" "multiple_choice" 1 7 =
    { response := "가격이요", score := none, reasoning := "가격이요" } := by decide

/-- The parsed-response dictionary as `_calculate_confidence` inspects it:
an optional `score` entry and an optional `persona_id` entry (the survey
parser never writes `persona_id`). -/
structure ParsedDict where
  score : Option Int
  personaId : Option String
deriving Repr, DecidableEq

/-- The `personal_indicators` list (with its duplicated `저는` entry). -/
def personalIndicators : List String :=
  ["개인적으로", "저는", "제 경험", "저의", "나의", "저에게", "제가", "저는"]

/-- The `reason_indicators` list (with its duplicated `왜냐하면` entry). -/
def reasonIndicators : List String :=
  ["이유", "때문에", "왜냐하면", "왜냐하면", "그래서", "따라서", "때문"]

/-- The sum built by `EnhancedAIAgent._calculate_confidence` before the
final `min(·, 1.0)` cap: base 0.3 plus length, marker, reason, content,
score and persona-id increments, all non-negative. -/
def confidenceRaw (response : String) (parsed : ParsedDict) : ℚ :=
  3/10
    + (if 50 < response.length then (1 : ℚ)/10 else 0)
    + (if 100 < response.length then (1 : ℚ)/10 else 0)
    + (if 200 < response.length then (1 : ℚ)/10 else 0)
    + ((personalIndicators.filter (fun ind => containsSub response ind)).length : ℚ) * (5/100)
    + ((reasonIndicators.filter (fun ind => containsSub response ind)).length : ℚ) * (3/100)
    + (if containsSub response "경험" || containsSub response "사용" || containsSub response "구매"
        then (1 : ℚ)/10 else 0)
    + (if parsed.score.isSome then (1 : ℚ)/10 else 0)
    + (match parsed.personaId with
        | some s => (((if isAllDigits s then digitsToNat s.toList else 0) % 10 : ℕ) : ℚ) * (1/100)
        | none => 0)

/-- Model of `EnhancedAIAgent._calculate_confidence`. -/
def calculateConfidence (response : String) (parsed : ParsedDict) : ℚ :=
  min (confidenceRaw response parsed) 1

/-- Model of `AdvancedPersonaSimulator._calculate_confidence`
(scripts/advanced_simulation_system.py). -/
def advCalculateConfidence (response reasoning : String) : ℚ :=
  min (1/2
    + (if 50 < response.length then (1 : ℚ)/10 else 0)
    + (if containsSub response "개인적인" || containsSub response "경험" then (1 : ℚ)/10 else 0)
    + (if 20 < reasoning.length then (1 : ℚ)/10 else 0)) 1

/-- The constant system message of
`EnhancedAIAgent.generate_enhanced_survey_response`. -/
def enhancedSystemMessage : String :=
  "당신은 주어진 페르소나의 특성을 바탕으로 진정성 있는 응답을 생성하는 AI입니다."

/-- Python's floor division `//`. -/
def pyFloorDiv (a b : Int) : Int := Int.fdiv a b

/-- The survey result of `generate_enhanced_survey_response` (the metadata
fields other than confidence — traits used, style, timestamp — are
presentation-only and outside the model). -/
structure EnhancedResult where
  response : String
  score : Option Int
  reasoning : String
  confidence : ℚ
  error : Option String
deriving Repr, DecidableEq

/-- Model of `EnhancedAIAgent.generate_enhanced_survey_response`: on success parse
the (stripped) backend text and score its confidence; on a raised backend
error return the fallback dictionary whose score is the scale midpoint
`smin + (smax - smin) // 2` and whose confidence is 0.0. -/
def generateEnhancedSurveyResponse (invoke : String → String → Except TransportError String)
    (hash : String → Nat) (p : Persona) (question questionType : String)
    (smin smax : Int) (context : String) (options : Option (List String)) : EnhancedResult :=
  match invoke enhancedSystemMessage (createEnhancedSurveyPrompt
      (buildEnhancedPersonaContext hash p) question questionType smin smax context options) with
  | .ok raw =>
    let ai := pyStrip raw
    let parsed := parseSurveyResponse ai questionType smin smax
    { response := parsed.response, score := parsed.score, reasoning := parsed.reasoning,
      confidence := calculateConfidence ai ⟨parsed.score, none⟩, error := none }
  | .error e =>
    { response := "응답 생성 오류: " ++ e.message,
      score := some (smin + pyFloorDiv (smax - smin) 2),
      reasoning := "시스템 오류로 인한 기본 응답",
      confidence := 0, error := some e.message }

/-- A JSON value as `json.loads` produces it (integers only: the record
shapes this system exchanges carry integer answers and string reasonings;
floats and `\u` escapes are outside the modelled subset). -/
inductive JValue where
  | jnull : JValue
  | jbool (b : Bool) : JValue
  | jnum (n : Int) : JValue
  | jstr (s : String) : JValue
  | jarr (elems : List JValue) : JValue
  | jobj (fields : List (String × JValue)) : JValue
deriving Repr, Inhabited

def lbrace : Char := Char.ofNat 0x7b

def rbrace : Char := Char.ofNat 0x7d

/-- JSON inter-token white-space. -/
def jsonWs (c : Char) : Bool := c = ' ' || c = '\t' || c = '\n' || c = '\r'

def skipJsonWs (l : List Char) : List Char := l.dropWhile jsonWs

/-- JSON string body after the opening quote, with the common escapes. -/
def parseJStr : Nat → List Char → Option (List Char × List Char)
  | 0, _ => none
  | _ + 1, [] => none
  | fuel + 1, c :: rest =>
    if c = '"' then some ([], rest)
    else if c = '\\' then
      match rest with
      | [] => none
      | e :: rest2 =>
        let dec : Option Char :=
          if e = '"' then some '"'
          else if e = '\\' then some '\\'
          else if e = '/' then some '/'
          else if e = 'n' then some '\n'
          else if e = 't' then some '\t'
          else if e = 'r' then some '\r'
          else none
        match dec with
        | none => none
        | some d => (parseJStr fuel rest2).map (fun pr => (d :: pr.1, pr.2))
    else (parseJStr fuel rest).map (fun pr => (c :: pr.1, pr.2))

/-- JSON integer (a fraction or exponent falls outside the modelled subset). -/
def parseJNum (l : List Char) : Option (Int × List Char) :=
  let negAndRest := match l with | '-' :: r => (true, r) | _ => (false, l)
  let ds := negAndRest.2.takeWhile isAsciiDigit
  if ds.isEmpty then none
  else
    let rest := negAndRest.2.drop ds.length
    let bad := match rest with
      | c :: _ => c = '.' || c = 'e' || c = 'E'
      | [] => false
    if bad then none
    else
      let v : Int := (digitsToNat ds : Int)
      some (if negAndRest.1 then -v else v, rest)

/-- Consume an expected literal segment. -/
def dropLit : List Char → List Char → Option (List Char)
  | [], l => some l
  | x :: xs, y :: ys => if x = y then dropLit xs ys else none
  | _ :: _, [] => none

mutual

/-- Recursive-descent JSON value parser; the fuel bounds nesting depth and
every level consumes at least one character. -/
def parseJValue : Nat → List Char → Option (JValue × List Char)
  | 0, _ => none
  | fuel + 1, l =>
    match skipJsonWs l with
    | [] => none
    | c :: rest =>
      if c = '"' then
        match parseJStr (rest.length + 1) rest with
        | some (s, r) => some (.jstr (String.mk s), r)
        | none => none
      else if c = lbrace then
        match skipJsonWs rest with
        | d :: rest2 =>
          if d = rbrace then some (.jobj [], rest2)
          else
            match parseJMembers fuel (d :: rest2) with
            | some (fields, r) => some (.jobj fields, r)
            | none => none
        | [] => none
      else if c = '[' then
        match skipJsonWs rest with
        | d :: rest2 =>
          if d = ']' then some (.jarr [], rest2)
          else
            match parseJElems fuel (d :: rest2) with
            | some (elems, r) => some (.jarr elems, r)
            | none => none
        | [] => none
      else if c = 't' then
        match dropLit ['r', 'u', 'e'] rest with
        | some r => some (.jbool true, r)
        | none => none
      else if c = 'f' then
        match dropLit ['a', 'l', 's', 'e'] rest with
        | some r => some (.jbool false, r)
        | none => none
      else if c = 'n' then
        match dropLit ['u', 'l', 'l'] rest with
        | some r => some (.jnull, r)
        | none => none
      else
        match parseJNum (c :: rest) with
        | some (v, r) => some (.jnum v, r)
        | none => none

/-- One or more `"key": value` members separated by commas, ended by `}`. -/
def parseJMembers : Nat → List Char → Option (List (String × JValue) × List Char)
  | 0, _ => none
  | fuel + 1, l =>
    match skipJsonWs l with
    | c :: rest =>
      if c = '"' then
        match parseJStr (rest.length + 1) rest with
        | some (k, r1) =>
          match skipJsonWs r1 with
          | d :: r2 =>
            if d = ':' then
              match parseJValue fuel r2 with
              | some (v, r3) =>
                match skipJsonWs r3 with
                | e :: r4 =>
                  if e = ',' then
                    match parseJMembers fuel r4 with
                    | some (fields, r5) => some ((String.mk k, v) :: fields, r5)
                    | none => none
                  else if e = rbrace then some ([(String.mk k, v)], r4)
                  else none
                | [] => none
              | none => none
            else none
          | [] => none
        | none => none
      else none
    | [] => none

/-- One or more array elements separated by commas, ended by `]`. -/
def parseJElems : Nat → List Char → Option (List JValue × List Char)
  | 0, _ => none
  | fuel + 1, l =>
    match parseJValue fuel l with
    | some (v, r) =>
      match skipJsonWs r with
      | e :: r2 =>
        if e = ',' then
          match parseJElems fuel r2 with
          | some (elems, r3) => some (v :: elems, r3)
          | none => none
        else if e = ']' then some ([v], r2)
        else none
      | [] => none
    | none => none

end

/-- Model of `json.loads` on the modelled subset: parse one value and require that
only white-space remains (Python raises `Extra data` otherwise);
`none` models a raised `JSONDecodeError`. -/
def jsonLoads (s : String) : Option JValue :=
  match parseJValue (s.length + 2) s.toList with
  | some (v, rest) => if (skipJsonWs rest).isEmpty then some v else none
  | none => none

/-- Python `value["key"]` on a parsed JSON value: `none` models the raised
`KeyError`/`TypeError` (the inputs here carry no duplicate keys). -/
def jLookup (k : String) : JValue → Option JValue
  | .jobj fields => List.lookup k fields
  | _ => none

/-- Model of `DigitalTwinSurveySystem._get_survey_response`, parsing part: try
`json.loads` on the backend text; on failure fall back to the dictionary
whose `answer` is the first stand-alone digit 1-7 of the text, defaulting
to the midpoint 4, and whose `reasoning` is the whole text. -/
def dtGetSurveyResponse (content : String) : JValue :=
  match jsonLoads content with
  | some v => v
  | none =>
    .jobj [("answer", .jnum ((findAllDigit17 false content.toList).headD 4 : Int)),
           ("reasoning", .jstr content)]

example : jsonLoads "\x7b\"answer\": 5, \"reasoning\": \"ok\"\x7d" =
    some (.jobj [("answer", .jnum 5), ("reasoning", .jstr "ok")]) := rfl
example : jsonLoads "그냥 텍스트" = none := rfl
example : dtGetSurveyResponse "I pick 6 here" =
    .jobj [("answer", .jnum 6), ("reasoning", .jstr "I pick 6 here")] := rfl

/-- The system prompt of `_get_survey_response`. -/
def dtSystemPrompt (scale : String) : String :=
  "You are an AI assistant simulating a survey participant. \nYour task is to answer the survey question based on the persona profile provided.\n\nResponse format:\n- Provide a numerical answer on a scale of "
    ++ scale
    ++ "\n- Provide brief reasoning for your answer\n\nBe consistent with the persona\x27s characteristics, beliefs, and past responses."

/-- The user prompt of `_get_survey_response` (the `#` comment sits inside
the f-string literal). -/
def dtUserPrompt (scale personaText question : String) : String :=
  "Persona Profile:\n" ++ String.mk (personaText.toList.take 2000)
    ++ "  # 토큰 제한을 위해 일부만 사용\n\nSurvey Question:\n" ++ question
    ++ "\n\nPlease respond with a number from " ++ scale
    ++ " and explain your reasoning briefly.\nFormat your response as JSON:\n\x7b\"answer\": <number>, \"reasoning\": \"<brief explanation>\"\x7d"

/-- One answer/reasoning cell of a `conduct_survey` row. -/
structure DtCellResult where
  answer : Option JValue
  reasoning : JValue
deriving Repr

/-- Model of `_get_survey_response` wraps a backend failure as
`Exception(f"API 호출 실패: {e}")` and the cell handler stores
`f"Error: {e}"`. -/
def dtErrorText (e : TransportError) : String := "Error: API 호출 실패: " ++ e.message

/-- The cell handler's text for the `KeyError` raised by
`response['answer']` on a JSON object without that key (Python renders the
key quoted; the quotes are elided here). -/
def dtKeyErrorText : String := "Error: KeyError: answer"

/-- One (persona, question) cell of `DigitalTwinSurveySystem.conduct_survey`:
call the backend, parse, store `response["answer"]` and
`response.get("reasoning", "")`; any exception is caught at the cell
boundary and stored as a `None` answer with an error reasoning. -/
def dtCell (invoke : String → String → Except TransportError String)
    (scale personaText question : String) : DtCellResult :=
  match invoke (dtSystemPrompt scale) (dtUserPrompt scale personaText question) with
  | .error e => { answer := none, reasoning := .jstr (dtErrorText e) }
  | .ok content =>
    let r := dtGetSurveyResponse content
    match jLookup "answer" r with
    | none => { answer := none, reasoning := .jstr dtKeyErrorText }
    | some a => { answer := some a, reasoning := (jLookup "reasoning" r).getD (.jstr "") }

/-- One dataset entry as `conduct_survey` reads it. -/
structure DtPersonaData where
  participantId : Option String
  personaText : String
deriving Repr, DecidableEq

/-- One `persona_result` row of `conduct_survey`: the participant id, the
dataset index and the `Q1..QM` cells in question order. -/
structure DtRow where
  participantId : String
  personaIndex : Nat
  cells : List DtCellResult
deriving Repr

/-- The row built for one selected persona index. -/
def dtMakeRow (invoke : String → String → Except TransportError String)
    (idx : Nat) (pd : DtPersonaData) (questions : List String) : DtRow :=
  { participantId := pd.participantId.getD ("P" ++ toString idx),
    personaIndex := idx,
    cells := questions.map (fun q => dtCell invoke "1-7" pd.personaText q) }

/-- The row loop of `DigitalTwinSurveySystem.conduct_survey`; an
out-of-range persona index raises out of the loop, losing the local result
list, which `none` models. -/
def dtRows (invoke : String → String → Except TransportError String)
    (dataset : List DtPersonaData) (questions : List String) :
    List Nat → Option (List DtRow)
  | [] => some []
  | idx :: rest =>
    match dataset.get? idx with
    | none => none
    | some pd =>
      match dtRows invoke dataset questions rest with
      | none => none
      | some rows => some (dtMakeRow invoke idx pd questions :: rows)

/-- Model of `DigitalTwinSurveySystem.conduct_survey` over the selected indices. -/
def dtConductSurvey (invoke : String → String → Except TransportError String)
    (dataset : List DtPersonaData) (indices : List Nat) (questions : List String) :
    Option (List DtRow) :=
  dtRows invoke dataset questions indices

/-- One survey response as `ResultsManager.analyze_survey_results` reads
it: persona id, question id, question text and the optional score. -/
structure RespRec where
  personaId : String
  questionId : String
  question : String
  score : Option Int
deriving Repr, DecidableEq

/-- One per-question accumulator entry of `analyze_survey_results`. -/
structure QGroup where
  question : String
  scores : List Int
  errors : Nat
deriving Repr, DecidableEq

/-- Apply one record to its question's accumulator: a non-null score is
appended, a null score only bumps the error tally. -/
def applyRec (g : QGroup) (score : Option Int) : QGroup :=
  match score with
  | some s => { g with scores := g.scores ++ [s] }
  | none => { g with errors := g.errors + 1 }

/-- One iteration of the grouping loop of `analyze_survey_results`: create
the question's entry on first sight, then apply the record to it. -/
def groupStep (acc : List (String × QGroup)) (r : RespRec) : List (String × QGroup) :=
  if acc.any (fun e => decide (e.1 = r.questionId)) then
    acc.map (fun e => if e.1 = r.questionId then (e.1, applyRec e.2 r.score) else e)
  else acc ++ [(r.questionId, applyRec ⟨r.question, [], 0⟩ r.score)]

/-- Key lookup in the grouping accumulator (keys are unique by
construction). -/
def lookupQ (q : String) : List (String × QGroup) → Option QGroup
  | [] => none
  | (k, g) :: es => if k = q then some g else lookupQ q es

/-- Key lookup in a distribution table. -/
def lookupD (v : Int) : List (Int × Nat) → Option Nat
  | [] => none
  | (k, c) :: es => if k = v then some c else lookupD v es

/-- The grouping loop of `analyze_survey_results` (an insertion-ordered
dict keyed by question id). -/
def groupResponses (rs : List RespRec) : List (String × QGroup) := rs.foldl groupStep []

/-- The statistics block written for a question with at least one score. -/
structure QStats where
  mean : ℚ
  minv : Int
  maxv : Int
  count : Nat
  dist : List (Int × Nat)
deriving Repr, DecidableEq

/-- Python `min` over a non-empty list (the `[]` case is unreachable). -/
def minOf : List Int → Int
  | [] => 0
  | x :: xs => xs.foldl min x

/-- Python `max` over a non-empty list (the `[]` case is unreachable). -/
def maxOf : List Int → Int
  | [] => 0
  | x :: xs => xs.foldl max x

/-- The statistics pass of `analyze_survey_results`: mean, min, max, count
and the `{i: scores.count(i) for i in range(1, 8)}` distribution. -/
def mkQStats (scores : List Int) : QStats :=
  { mean := (scores.sum : ℚ) / (scores.length : ℚ),
    minv := minOf scores, maxv := maxOf scores, count := scores.length,
    dist := (List.range 7).map (fun k => ((k : Int) + 1, scores.count ((k : Int) + 1))) }

/-- Model of `ResultsManager.analyze_survey_results`: group the records by question,
then attach statistics to every question that collected at least one
non-null score. -/
def analyzeSurveyResults (rs : List RespRec) : List (String × QGroup × Option QStats) :=
  (groupResponses rs).map (fun e =>
    (e.1, e.2, if e.2.scores.isEmpty then none else some (mkQStats e.2.scores)))

/-- The non-null scores of one question, in record order (the
specification's reading of the grouping loop). -/
def scoresOf (rs : List RespRec) (q : String) : List Int :=
  (rs.filter (fun r => decide (r.questionId = q))).filterMap (fun r => r.score)

/-- The null-score (failed) records of one question. -/
def nullErrorsOf (rs : List RespRec) (q : String) : Nat :=
  ((rs.filter (fun r => decide (r.questionId = q))).filter (fun r => r.score.isNone)).length

/-! Concrete inputs used by the witnesses below. -/

def wHash : String → Nat := fun _ => 0

def wPersonaA : Persona := ⟨"3", none⟩

def wPersonaB : Persona := ⟨"4", none⟩

def wQ1 : SurveyQuestion := ⟨"Q1", "제품 만족도", "1-7", none⟩

def wQ2 : SurveyQuestion := ⟨"Q2", "추천 의향", "1-7", none⟩

def wSurvey : Survey := ⟨"테스트 설문", [wQ1, wQ2]⟩

/-- A backend that fails with a rate-limit only on the second question's
cell and answers normally elsewhere. -/
def wInvokeFail2 : String → String → Except TransportError String :=
  fun _ usr => if usr = "질문: 추천 의향" then .error ⟨429, "rate_limited"⟩
               else .ok "점수: 5\n이유: 무난해요"

def wInvokeOk : String → String → Except TransportError String :=
  fun _ _ => .ok "점수: 5\n이유: 무난"

def wInvokeErr : String → String → Except TransportError String :=
  fun _ _ => .error ⟨503, "down"⟩

def wDataset : List DtPersonaData := [⟨some "P1", "친절한 사람"⟩, ⟨none, "신중한 사람"⟩]

def wResponses : List RespRec :=
  [⟨"1", "Q1", "만족도", some 5⟩, ⟨"2", "Q1", "만족도", none⟩,
   ⟨"1", "Q2", "추천", some 7⟩, ⟨"3", "Q1", "만족도", some 6⟩]

/-- The accumulator entry the grouping loop builds for `Q1` of
`wResponses`: scores 5 and 6 in order, one null record. -/
def wQ1Group : QGroup := ⟨"만족도", [5, 6], 1⟩

/-! Helper lemmas. -/

theorem lt_length_of_get?_some {α : Type} {l : List α} {n : Nat} {a : α}
    (h : l.get? n = some a) : n < l.length := by
  by_contra hn
  rw [List.get?_eq_none.mpr (Nat.le_of_not_lt hn)] at h
  cases h

theorem foldl_append_singleton {α β : Type} (f : α → β) (l : List α) (acc : List β) :
    l.foldl (fun a x => a ++ [f x]) acc = acc ++ l.map f := by
  induction l generalizing acc with
  | nil => simp
  | cons x xs ih => rw [List.foldl_cons, ih, List.map_cons]; simp

/-- The double loop of `conduct_survey` is the row-major flattening of the
persona × question matrix. -/
theorem conductSurvey_eq_flatMap (invoke : String → String → Except TransportError String)
    (hash : String → Nat) (survey : Survey) (personas : List Persona) :
    conductSurvey invoke hash survey personas =
      personas.flatMap (fun p => survey.questions.map (mkSurveyRecord invoke hash survey p)) := by
  unfold conductSurvey
  suffices h : ∀ (ps : List Persona) (acc : List SurveyRecord),
      ps.foldl (fun acc p => survey.questions.foldl
        (fun acc2 q => acc2 ++ [mkSurveyRecord invoke hash survey p q]) acc) acc
        = acc ++ ps.flatMap (fun p => survey.questions.map (mkSurveyRecord invoke hash survey p)) by
    simpa using h personas []
  intro ps
  induction ps with
  | nil => intro acc; simp
  | cons p ps ih =>
    intro acc
    rw [List.foldl_cons, foldl_append_singleton, ih, List.flatMap_cons]
    simp

theorem length_flatMap_const {α β : Type} (f : α → List β) (M : Nat)
    (hf : ∀ a, (f a).length = M) (l : List α) :
    (l.flatMap f).length = l.length * M := by
  induction l with
  | nil => simp
  | cons x xs ih =>
    rw [List.flatMap_cons, List.length_append, hf, ih, List.length_cons, Nat.succ_mul]
    omega

theorem flatMap_get?_formula {α β : Type} (f : α → List β) (M : Nat)
    (hf : ∀ a, (f a).length = M) :
    ∀ (l : List α) (i j : Nat) (a : α), j < M → l.get? i = some a →
      (l.flatMap f).get? (i * M + j) = (f a).get? j := by
  intro l
  induction l with
  | nil => intro i j a _ h; simp at h
  | cons x xs ih =>
    intro i j a hj h
    cases i with
    | zero =>
      rw [List.get?_cons_zero] at h
      injection h with h'
      subst h'
      rw [List.flatMap_cons, Nat.zero_mul, Nat.zero_add]
      exact List.get?_append (by rw [hf]; exact hj)
    | succ i =>
      rw [List.get?_cons_succ] at h
      rw [List.flatMap_cons]
      have hlen : (f x).length ≤ (i + 1) * M + j := by rw [hf, Nat.succ_mul]; omega
      rw [List.get?_append_right hlen]
      have harith : (i + 1) * M + j - (f x).length = i * M + j := by
        rw [hf, Nat.succ_mul]; omega
      rw [harith]
      exact ih i j a hj h

/-- A failing backend call makes `respond_to_survey_question` return the
failure record verbatim. -/
theorem mkSurveyRecord_error (invoke : String → String → Except TransportError String)
    (hash : String → Nat) (survey : Survey) (p : Persona) (q : SurveyQuestion)
    (e : TransportError)
    (h : invoke (systemPromptSurvey (buildPersonaContext hash p) q.scaleDescription)
      ("질문: " ++ q.text) = .error e) :
    mkSurveyRecord invoke hash survey p q =
      { personaId := p.id, question := q.text, score := none, reasoning := none,
        error := some e.message, rawResponse := none, surveyTitle := survey.title,
        questionId := q.questionId, category := q.category } := by
  unfold mkSurveyRecord respondToSurveyQuestion
  rw [h]

/-- The per-index row construction of the digital-twin survey loop. -/
theorem dtRows_spec (invoke : String → String → Except TransportError String)
    (dataset : List DtPersonaData) (questions : List String) :
    ∀ (indices : List Nat), (∀ i ∈ indices, i < dataset.length) →
      ∃ rows, dtRows invoke dataset questions indices = some rows ∧
        rows.length = indices.length ∧
        (∀ row ∈ rows, row.cells.length = questions.length) ∧
        (∀ (k idx : Nat) (pd : DtPersonaData), indices.get? k = some idx →
          dataset.get? idx = some pd →
          rows.get? k = some (dtMakeRow invoke idx pd questions)) := by
  intro indices
  induction indices with
  | nil =>
    intro _
    exact ⟨[], rfl, rfl, by simp, by intro k idx pd hk _; simp at hk⟩
  | cons idx rest ih =>
    intro h
    have h1 : idx < dataset.length := h idx (by simp)
    obtain ⟨pd0, hpd0⟩ : ∃ pd, dataset.get? idx = some pd := by
      cases hq : dataset.get? idx with
      | none => exact absurd (List.get?_eq_none.mp hq) (by omega)
      | some pd => exact ⟨pd, rfl⟩
    obtain ⟨rows, hrows, hlen, hcells, hget⟩ := ih (fun i hi => h i (by simp [hi]))
    refine ⟨dtMakeRow invoke idx pd0 questions :: rows, ?_, by simp [hlen], ?_, ?_⟩
    · unfold dtRows
      rw [hpd0, hrows]
    · intro row hrow
      rcases List.mem_cons.mp hrow with rfl | hrow
      · simp [dtMakeRow]
      · exact hcells row hrow
    · intro k idx' pd' hk hpd'
      cases k with
      | zero =>
        rw [List.get?_cons_zero] at hk
        injection hk with hk'
        subst hk'
        rw [hpd0] at hpd'
        injection hpd' with hpd''
        subst hpd''
        rw [List.get?_cons_zero]
      | succ k =>
        rw [List.get?_cons_succ] at hk
        rw [List.get?_cons_succ]
        exact hget k idx' pd' hk hpd'

/-- C4: for N personas and M questions with no cancellation, the
`SurveySystem.conduct_survey` loop yields exactly N×M records in row-major
(persona, then question) input iteration order; the digital-twin
`conduct_survey` likewise yields one row per selected persona, in
selection order, each holding all M question cells in question order. -/
theorem conduct_survey_completeness_order :
    (∀ (invoke : String → String → Except TransportError String) (hash : String → Nat)
        (survey : Survey) (personas : List Persona),
      conductSurvey invoke hash survey personas =
        personas.flatMap (fun p => survey.questions.map (mkSurveyRecord invoke hash survey p)) ∧
      (conductSurvey invoke hash survey personas).length =
        personas.length * survey.questions.length) ∧
    (∀ (invoke : String → String → Except TransportError String)
        (dataset : List DtPersonaData) (indices : List Nat) (questions : List String),
      (∀ i ∈ indices, i < dataset.length) →
      ∃ rows, dtConductSurvey invoke dataset indices questions = some rows ∧
        rows.length = indices.length ∧
        (∀ row ∈ rows, row.cells.length = questions.length) ∧
        (∀ (k idx : Nat) (pd : DtPersonaData), indices.get? k = some idx →
          dataset.get? idx = some pd →
          rows.get? k = some (dtMakeRow invoke idx pd questions))) := by
  constructor
  · intro invoke hash survey personas
    refine ⟨conductSurvey_eq_flatMap invoke hash survey personas, ?_⟩
    rw [conductSurvey_eq_flatMap]
    exact length_flatMap_const _ survey.questions.length (fun p => by simp) personas
  · intro invoke dataset indices questions h
    exact dtRows_spec invoke dataset questions indices h

/-- C4 witness: a 2-persona × 2-question run and a 2-row digital-twin run
at concrete inputs. -/
theorem conduct_survey_completeness_order_witness :
    ((conductSurvey wInvokeOk wHash wSurvey [wPersonaA, wPersonaB]).length =
      [wPersonaA, wPersonaB].length * wSurvey.questions.length) ∧
    (∀ i ∈ [0, 1], i < wDataset.length) ∧
    (∃ rows, dtConductSurvey wInvokeOk wDataset [0, 1] ["제품이 마음에 드나요"] = some rows ∧
      rows.length = [0, 1].length ∧
      (∀ row ∈ rows, row.cells.length = ["제품이 마음에 드나요"].length) ∧
      (∀ (k idx : Nat) (pd : DtPersonaData), [0, 1].get? k = some idx →
        wDataset.get? idx = some pd →
        rows.get? k = some (dtMakeRow wInvokeOk idx pd ["제품이 마음에 드나요"]))) :=
  ⟨(conduct_survey_completeness_order.1 wInvokeOk wHash wSurvey [wPersonaA, wPersonaB]).2,
   by decide,
   conduct_survey_completeness_order.2 wInvokeOk wDataset [0, 1] ["제품이 마음에 드나요"]
     (by decide)⟩

/-- C1 (amended): a transport failure for one (persona, question) cell is
caught at the cell boundary — with the basic agent the cell's record
carries a null score, a null reasoning and the error message; with the
enhanced agent the cell's record carries the error message but the scale
midpoint `smin + (smax - smin) // 2` instead of null — and in either case
the batch continues: every cell of the run, before or after the failure,
still gets exactly its own record, so no single-item failure aborts the
batch. -/
theorem survey_batch_failure_isolation
    (invoke : String → String → Except TransportError String) (hash : String → Nat)
    (survey : Survey) (personas : List Persona) (i j : Nat) (p : Persona)
    (q : SurveyQuestion) (e : TransportError)
    (hp : personas.get? i = some p) (hq : survey.questions.get? j = some q)
    (hfail : invoke (systemPromptSurvey (buildPersonaContext hash p) q.scaleDescription)
      ("질문: " ++ q.text) = .error e) :
    ((conductSurvey invoke hash survey personas).get? (i * survey.questions.length + j) =
      some { personaId := p.id, question := q.text, score := none, reasoning := none,
             error := some e.message, rawResponse := none, surveyTitle := survey.title,
             questionId := q.questionId, category := q.category }) ∧
    (conductSurvey invoke hash survey personas).length =
      personas.length * survey.questions.length ∧
    (∀ (i' j' : Nat) (p' : Persona) (q' : SurveyQuestion),
      personas.get? i' = some p' → survey.questions.get? j' = some q' →
      (conductSurvey invoke hash survey personas).get? (i' * survey.questions.length + j') =
        some (mkSurveyRecord invoke hash survey p' q')) ∧
    (∀ (invoke2 : String → String → Except TransportError String) (hash2 : String → Nat)
        (p2 : Persona) (question2 qt : String) (smin smax : Int) (ctx : String)
        (opts : Option (List String)) (e2 : TransportError),
      invoke2 enhancedSystemMessage (createEnhancedSurveyPrompt
        (buildEnhancedPersonaContext hash2 p2) question2 qt smin smax ctx opts) = .error e2 →
      (generateEnhancedSurveyResponse invoke2 hash2 p2 question2 qt smin smax ctx opts).score =
        some (smin + pyFloorDiv (smax - smin) 2) ∧
      (generateEnhancedSurveyResponse invoke2 hash2 p2 question2 qt smin smax ctx opts).error =
        some e2.message) := by
  have hM : ∀ p' : Persona,
      ((fun p' => survey.questions.map (mkSurveyRecord invoke hash survey p')) p').length =
        survey.questions.length := fun p' => by simp
  have hcell : ∀ (i' j' : Nat) (p' : Persona) (q' : SurveyQuestion),
      personas.get? i' = some p' → survey.questions.get? j' = some q' →
      (conductSurvey invoke hash survey personas).get? (i' * survey.questions.length + j') =
        some (mkSurveyRecord invoke hash survey p' q') := by
    intro i' j' p' q' hp' hq'
    rw [conductSurvey_eq_flatMap]
    rw [flatMap_get?_formula _ survey.questions.length hM personas i' j' p'
      (lt_length_of_get?_some hq') hp']
    rw [List.get?_map, hq']
    rfl
  refine ⟨?_, ?_, hcell, ?_⟩
  · rw [hcell i j p q hp hq, mkSurveyRecord_error invoke hash survey p q e hfail]
  · rw [conductSurvey_eq_flatMap]
    exact length_flatMap_const _ survey.questions.length hM personas
  · intro invoke2 hash2 p2 question2 qt smin smax ctx opts e2 hfail2
    unfold generateEnhancedSurveyResponse
    rw [hfail2]
    exact ⟨rfl, rfl⟩

/-- C1 witness: a backend failing with a 429 exactly on the (P3, Q2) cell
of a 2×2 batch; the cell's record is Failed with a null score and the
whole 2×2 batch is still produced cell by cell. -/
theorem survey_batch_failure_isolation_witness :
    [wPersonaA, wPersonaB].get? 0 = some wPersonaA ∧
    wSurvey.questions.get? 1 = some wQ2 ∧
    wInvokeFail2 (systemPromptSurvey (buildPersonaContext wHash wPersonaA) wQ2.scaleDescription)
      ("질문: " ++ wQ2.text) = .error ⟨429, "rate_limited"⟩ ∧
    ((conductSurvey wInvokeFail2 wHash wSurvey [wPersonaA, wPersonaB]).get?
        (0 * wSurvey.questions.length + 1) =
      some { personaId := wPersonaA.id, question := wQ2.text, score := none, reasoning := none,
             error := some "rate_limited", rawResponse := none, surveyTitle := wSurvey.title,
             questionId := wQ2.questionId, category := wQ2.category }) ∧
    (conductSurvey wInvokeFail2 wHash wSurvey [wPersonaA, wPersonaB]).length =
      [wPersonaA, wPersonaB].length * wSurvey.questions.length ∧
    (∀ (i' j' : Nat) (p' : Persona) (q' : SurveyQuestion),
      [wPersonaA, wPersonaB].get? i' = some p' → wSurvey.questions.get? j' = some q' →
      (conductSurvey wInvokeFail2 wHash wSurvey [wPersonaA, wPersonaB]).get?
          (i' * wSurvey.questions.length + j') =
        some (mkSurveyRecord wInvokeFail2 wHash wSurvey p' q')) ∧
    (∀ (invoke2 : String → String → Except TransportError String) (hash2 : String → Nat)
        (p2 : Persona) (question2 qt : String) (smin smax : Int) (ctx : String)
        (opts : Option (List String)) (e2 : TransportError),
      invoke2 enhancedSystemMessage (createEnhancedSurveyPrompt
        (buildEnhancedPersonaContext hash2 p2) question2 qt smin smax ctx opts) = .error e2 →
      (generateEnhancedSurveyResponse invoke2 hash2 p2 question2 qt smin smax ctx opts).score =
        some (smin + pyFloorDiv (smax - smin) 2) ∧
      (generateEnhancedSurveyResponse invoke2 hash2 p2 question2 qt smin smax ctx opts).error =
        some e2.message) := by
  have h1 : [wPersonaA, wPersonaB].get? 0 = some wPersonaA := rfl
  have h2 : wSurvey.questions.get? 1 = some wQ2 := rfl
  have h3 : wInvokeFail2
      (systemPromptSurvey (buildPersonaContext wHash wPersonaA) wQ2.scaleDescription)
      ("질문: " ++ wQ2.text) = .error ⟨429, "rate_limited"⟩ := rfl
  obtain ⟨c1, c2, c3, c4⟩ := survey_batch_failure_isolation wInvokeFail2 wHash wSurvey
    [wPersonaA, wPersonaB] 0 1 wPersonaA wQ2 ⟨429, "rate_limited"⟩ h1 h2 h3
  exact ⟨h1, h2, h3, c1, c2, c3, c4⟩

/-- C1 counterexample: the claim's "parsed_value (score) null" fails on the
enhanced agent — a transport failure there records the scale midpoint 4 on
a (1,7) scale, not null, alongside the error message. -/
theorem enhanced_failure_score_not_null :
    (generateEnhancedSurveyResponse wInvokeErr wHash wPersonaA "추천 의향" "likert" 1 7 ""
        none).score = some 4 ∧
    (generateEnhancedSurveyResponse wInvokeErr wHash wPersonaA "추천 의향" "likert" 1 7 ""
        none).error = some "down" ∧
    some (4 : Int) ≠ (none : Option Int) := by
  refine ⟨rfl, rfl, by decide⟩

/-- C2: for an all-digit persona id the derived-trait context is a pure
function of the id alone — identical under any two hash functions, i.e.
across any two interpreter runs.  For a non-digit id such as `test_1` the
context goes through the salted Python string hash, and two runs whose
hashes differ on the id produce different derived traits and different
context strings: the across-runs half of the claim fails on the code. -/
theorem persona_context_hash_dependence :
    (∀ (h h2 : String → Nat) (s : Option String),
      buildPersonaContext h ⟨"42", s⟩ = buildPersonaContext h2 ⟨"42", s⟩ ∧
      buildEnhancedPersonaContext h ⟨"42", s⟩ = buildEnhancedPersonaContext h2 ⟨"42", s⟩) ∧
    buildPersonaContext (fun _ => 5) ⟨"test_1", none⟩ ≠
      buildPersonaContext (fun _ => 6) ⟨"test_1", none⟩ ∧
    buildEnhancedPersonaContext (fun _ => 5) ⟨"test_1", none⟩ ≠
      buildEnhancedPersonaContext (fun _ => 6) ⟨"test_1", none⟩ := by
  exact ⟨fun h h2 s => ⟨rfl, rfl⟩, by decide, by decide⟩

/-- The pre-cap confidence sum starts at 0.3 and only ever adds
non-negative increments. -/
theorem le_confidenceRaw (response : String) (parsed : ParsedDict) :
    (3/10 : ℚ) ≤ confidenceRaw response parsed := by
  unfold confidenceRaw
  have h1 : (0:ℚ) ≤ (if 50 < response.length then (1 : ℚ)/10 else 0) := by split <;> norm_num
  have h2 : (0:ℚ) ≤ (if 100 < response.length then (1 : ℚ)/10 else 0) := by split <;> norm_num
  have h3 : (0:ℚ) ≤ (if 200 < response.length then (1 : ℚ)/10 else 0) := by split <;> norm_num
  have h4 : (0:ℚ) ≤
      ((personalIndicators.filter (fun ind => containsSub response ind)).length : ℚ) * (5/100) := by
    positivity
  have h5 : (0:ℚ) ≤
      ((reasonIndicators.filter (fun ind => containsSub response ind)).length : ℚ) * (3/100) := by
    positivity
  have h6 : (0:ℚ) ≤ (if containsSub response "경험" || containsSub response "사용"
      || containsSub response "구매" then (1 : ℚ)/10 else 0) := by split <;> norm_num
  have h7 : (0:ℚ) ≤ (if parsed.score.isSome then (1 : ℚ)/10 else 0) := by split <;> norm_num
  have h8 : (0:ℚ) ≤ (match parsed.personaId with
      | some s => (((if isAllDigits s then digitsToNat s.toList else 0) % 10 : ℕ) : ℚ) * (1/100)
      | none => 0) := by
    cases parsed.personaId with
    | none => norm_num
    | some s => positivity
  linarith

/-- C8: both confidence heuristics return a value in [0, 1]: the sum of the
base value and the non-negative increments is capped at 1.0 and never lies
below 0.0. -/
theorem confidence_in_unit_interval :
    (∀ (response : String) (parsed : ParsedDict),
      0 ≤ calculateConfidence response parsed ∧ calculateConfidence response parsed ≤ 1) ∧
    (∀ (response reasoning : String),
      0 ≤ advCalculateConfidence response reasoning ∧
      advCalculateConfidence response reasoning ≤ 1) := by
  constructor
  · intro response parsed
    exact ⟨le_min (le_trans (by norm_num) (le_confidenceRaw response parsed)) (by norm_num),
      min_le_right _ _⟩
  · intro response reasoning
    unfold advCalculateConfidence
    have h1 : (0:ℚ) ≤ (if 50 < response.length then (1 : ℚ)/10 else 0) := by split <;> norm_num
    have h2 : (0:ℚ) ≤ (if containsSub response "개인적인" || containsSub response "경험"
        then (1 : ℚ)/10 else 0) := by split <;> norm_num
    have h3 : (0:ℚ) ≤ (if 20 < reasoning.length then (1 : ℚ)/10 else 0) := by split <;> norm_num
    exact ⟨le_min (by linarith) (by norm_num), min_le_right _ _⟩

/-- C10: `_calculate_confidence` never returns less than its 0.3 base, so
every successfully generated survey response carries a confidence in
[0.3, 1], and confidence 0.0 arises exactly on the error path of
`generate_enhanced_survey_response`. -/
theorem enhanced_confidence_floor :
    (∀ (response : String) (parsed : ParsedDict),
      3/10 ≤ calculateConfidence response parsed ∧ calculateConfidence response parsed ≤ 1) ∧
    (∀ (invoke : String → String → Except TransportError String) (hash : String → Nat)
        (p : Persona) (question qt : String) (smin smax : Int) (ctx : String)
        (opts : Option (List String)) (raw : String),
      invoke enhancedSystemMessage (createEnhancedSurveyPrompt
        (buildEnhancedPersonaContext hash p) question qt smin smax ctx opts) = .ok raw →
      3/10 ≤ (generateEnhancedSurveyResponse invoke hash p question qt smin smax ctx opts).confidence ∧
      (generateEnhancedSurveyResponse invoke hash p question qt smin smax ctx opts).confidence ≤ 1 ∧
      (generateEnhancedSurveyResponse invoke hash p question qt smin smax ctx opts).error = none) ∧
    (∀ (invoke : String → String → Except TransportError String) (hash : String → Nat)
        (p : Persona) (question qt : String) (smin smax : Int) (ctx : String)
        (opts : Option (List String)) (e : TransportError),
      invoke enhancedSystemMessage (createEnhancedSurveyPrompt
        (buildEnhancedPersonaContext hash p) question qt smin smax ctx opts) = .error e →
      (generateEnhancedSurveyResponse invoke hash p question qt smin smax ctx opts).confidence = 0) := by
  refine ⟨?_, ?_, ?_⟩
  · intro response parsed
    exact ⟨le_min (le_confidenceRaw response parsed) (by norm_num), min_le_right _ _⟩
  · intro invoke hash p question qt smin smax ctx opts raw hok
    unfold generateEnhancedSurveyResponse
    rw [hok]
    exact ⟨le_min (le_confidenceRaw _ _) (by norm_num), min_le_right _ _, rfl⟩
  · intro invoke hash p question qt smin smax ctx opts e herr
    unfold generateEnhancedSurveyResponse
    rw [herr]

/-- C10 witness: a concrete successful call carries confidence in
[0.3, 1] with no error; a concrete failing call carries confidence 0. -/
theorem enhanced_confidence_floor_witness :
    wInvokeOk enhancedSystemMessage (createEnhancedSurveyPrompt
      (buildEnhancedPersonaContext wHash wPersonaA) "추천 의향" "likert" 1 7 "" none) =
      .ok "점수: 5\n이유: 무난" ∧
    (3/10 ≤ (generateEnhancedSurveyResponse wInvokeOk wHash wPersonaA "추천 의향" "likert"
        1 7 "" none).confidence ∧
      (generateEnhancedSurveyResponse wInvokeOk wHash wPersonaA "추천 의향" "likert"
        1 7 "" none).confidence ≤ 1 ∧
      (generateEnhancedSurveyResponse wInvokeOk wHash wPersonaA "추천 의향" "likert"
        1 7 "" none).error = none) ∧
    wInvokeErr enhancedSystemMessage (createEnhancedSurveyPrompt
      (buildEnhancedPersonaContext wHash wPersonaA) "추천 의향" "likert" 1 7 "" none) =
      .error ⟨503, "down"⟩ ∧
    (generateEnhancedSurveyResponse wInvokeErr wHash wPersonaA "추천 의향" "likert"
      1 7 "" none).confidence = 0 :=
  ⟨rfl,
   enhanced_confidence_floor.2.1 wInvokeOk wHash wPersonaA "추천 의향" "likert" 1 7 "" none
     "점수: 5\n이유: 무난" rfl,
   rfl,
   enhanced_confidence_floor.2.2 wInvokeErr wHash wPersonaA "추천 의향" "likert" 1 7 "" none
     ⟨503, "down"⟩ rfl⟩

/-- Everything `\b([1-7])\b` can return lies in 1..7. -/
theorem searchDigit17_range :
    ∀ (l : List Char) (pw : Bool) (n : Nat), searchDigit17 pw l = some n → 1 ≤ n ∧ n ≤ 7 := by
  intro l
  induction l with
  | nil => intro pw n h; simp [searchDigit17] at h
  | cons c rest ih =>
    intro pw n h
    simp only [searchDigit17] at h
    split at h
    · rename_i hcond
      injection h with h'
      subst h'
      have hd : isDigit17 c = true := by
        simp only [Bool.and_eq_true] at hcond
        exact hcond.1.1
      simp only [isDigit17, Bool.and_eq_true, decide_eq_true_eq] at hd
      unfold digitVal
      omega
    · exact ih _ _ h

/-- C3 (amended): every non-null score produced by `AIAgent._extract_score`
lies in 1..7, and every non-null score produced by the enhanced Likert
parser lies in [scale.min, scale.max]; the digital-twin JSON path (see the
counterexample) does not enforce the bound. -/
theorem likert_parsers_range_invariant :
    (∀ (s : String) (n : Nat), extractScore s = some n → 1 ≤ n ∧ n ≤ 7) ∧
    (∀ (s : String) (smin smax v : Int), smin ≤ smax →
      (parseSurveyResponse s "likert" smin smax).score = some v →
      smin ≤ v ∧ v ≤ smax) := by
  constructor
  · intro s n h
    unfold extractScore at h
    cases htag : searchScoreTagA s.toList with
    | none =>
      rw [htag] at h
      exact searchDigit17_range _ _ _ h
    | some m =>
      rw [htag] at h
      have h2 : (if 1 ≤ m ∧ m ≤ 7 then some m else searchDigit17 false s.toList) = some n := h
      by_cases hm : 1 ≤ m ∧ m ≤ 7
      · rw [if_pos hm] at h2
        injection h2 with h3
        subst h3
        exact hm
      · rw [if_neg hm] at h2
        exact searchDigit17_range _ _ _ h2
  · intro s smin smax v hle hv
    simp only [parseSurveyResponse, if_pos] at hv
    obtain ⟨n, _, rfl⟩ := Option.map_eq_some'.mp hv
    exact ⟨le_max_left _ _, max_le hle (min_le_left _ _)⟩

/-- C3 witness: in-range scores at concrete inputs through both parsers. -/
theorem likert_parsers_range_invariant_witness :
    extractScore "점수: 5" = some 5 ∧ (1 ≤ 5 ∧ 5 ≤ 7) ∧
    ((1:Int) ≤ 7) ∧ (parseSurveyResponse "점수: 9\n이유: 최고" "likert" 1 7).score = some 7 ∧
    ((1:Int) ≤ 7 ∧ (7:Int) ≤ 7) :=
  ⟨by decide, likert_parsers_range_invariant.1 "점수: 5" 5 (by decide), by decide, by decide,
   likert_parsers_range_invariant.2 "점수: 9\n이유: 최고" 1 7 7 (by decide) (by decide)⟩

/-- C3 counterexample: the digital-twin parser stores a backend-reported
JSON `answer` verbatim — raw text claiming 12 on the 1-7 scale yields a
record value 12, outside the declared scale. -/
theorem dt_json_answer_out_of_range :
    dtGetSurveyResponse "\x7b\"answer\": 12, \"reasoning\": \"ok\"\x7d" =
      .jobj [("answer", .jnum 12), ("reasoning", .jstr "ok")] ∧
    jLookup "answer" (dtGetSurveyResponse "\x7b\"answer\": 12, \"reasoning\": \"ok\"\x7d") =
      some (.jnum 12) ∧
    ¬((1 : Int) ≤ 12 ∧ (12 : Int) ≤ 7) :=
  ⟨rfl, rfl, by decide⟩

/-- C5 (amended): the enhanced parser clamps an out-of-range extracted
integer to the nearer bound, but records nothing about it — the reasoning
field is exactly the `이유:` extraction of the raw text, independent of
whether clamping happened; and the basic parser does not clamp at all: an
out-of-range strict tag makes `_extract_score` fall back to the
stand-alone-digit scan. -/
theorem enhanced_clamp_no_reasoning_record :
    (∀ (s : String) (smin smax : Int) (n : Nat), smin ≤ smax →
      searchScoreTagE s.toList = some n →
      (((n : Int) < smin → (parseSurveyResponse s "likert" smin smax).score = some smin) ∧
       (smax < (n : Int) → (parseSurveyResponse s "likert" smin smax).score = some smax) ∧
       (parseSurveyResponse s "likert" smin smax).reasoning =
         (match searchReasonTagE s.toList with
          | some g => String.mk g
          | none => s))) ∧
    (∀ (s : String) (m : Nat), searchScoreTagA s.toList = some m → ¬(1 ≤ m ∧ m ≤ 7) →
      extractScore s = searchDigit17 false s.toList) := by
  constructor
  · intro s smin smax n hle htag
    have htag2 : searchScoreTagE s.data = some n := htag
    have hscore : (parseSurveyResponse s "likert" smin smax).score =
        some (max smin (min smax (n : Int))) := by
      simp [parseSurveyResponse, htag2]
    refine ⟨?_, ?_, ?_⟩
    · intro hlt
      rw [hscore, min_eq_right (le_of_lt (lt_of_lt_of_le hlt hle)), max_eq_left (le_of_lt hlt)]
    · intro hgt
      rw [hscore, min_eq_left (le_of_lt hgt), max_eq_right hle]
    · simp [parseSurveyResponse]
  · intro s m htag hm
    unfold extractScore
    rw [htag]
    show (if 1 ≤ m ∧ m ≤ 7 then some m else searchDigit17 false s.toList) =
      searchDigit17 false s.toList
    rw [if_neg hm]

/-- C5 witness: a 9 on a (1,7) scale is clamped to 7 with the plain
extracted reasoning; a strict `점수: 12` makes the basic parser fall back. -/
theorem enhanced_clamp_no_reasoning_record_witness :
    ((1:Int) ≤ 7) ∧ searchScoreTagE "점수: 9\n이유: 최고".toList = some 9 ∧
    ((((9:Nat) : Int) < 1 →
      (parseSurveyResponse "점수: 9\n이유: 최고" "likert" 1 7).score = some 1) ∧
     ((7:Int) < ((9:Nat) : Int) →
      (parseSurveyResponse "점수: 9\n이유: 최고" "likert" 1 7).score = some 7) ∧
     (parseSurveyResponse "점수: 9\n이유: 최고" "likert" 1 7).reasoning =
       (match searchReasonTagE "점수: 9\n이유: 최고".toList with
        | some g => String.mk g
        | none => "점수: 9\n이유: 최고")) ∧
    searchScoreTagA "점수: 12".toList = some 12 ∧ ¬(1 ≤ 12 ∧ 12 ≤ 7) ∧
    extractScore "점수: 12" = searchDigit17 false "점수: 12".toList :=
  ⟨by decide, by decide,
   enhanced_clamp_no_reasoning_record.1 "점수: 9\n이유: 최고" 1 7 9 (by decide) (by decide),
   by decide, by decide,
   enhanced_clamp_no_reasoning_record.2 "점수: 12" 12 (by decide) (by decide)⟩

/-- C5 counterexample: a clamped parse (raw tag 12, scale (1,7)) is equal,
as a complete record, to the unclamped parse of the same text with tag 7 —
so the clamping cannot have been recorded in the reasoning field (or
anywhere else in the record). -/
theorem clamped_parse_indistinguishable :
    parseSurveyResponse "점수: 12\n이유: 디자인 때문" "likert" 1 7 =
      parseSurveyResponse "점수: 7\n이유: 디자인 때문" "likert" 1 7 ∧
    (parseSurveyResponse "점수: 12\n이유: 디자인 때문" "likert" 1 7).score = some 7 ∧
    (parseSurveyResponse "점수: 12\n이유: 디자인 때문" "likert" 1 7).reasoning = "디자인 때문" := by
  refine ⟨by decide, by decide, by decide⟩

/-- C6 (amended): on Likert raw text with no extractable integer, the
digital-twin parser falls back to the midpoint 4 with the whole raw text
stored as reasoning — but with no "no numeric value found" annotation and
no status field — while `AIAgent._extract_score` returns null, not the
midpoint. -/
theorem no_integer_fallback_behavior :
    (∀ (content : String), jsonLoads content = none →
      findAllDigit17 false content.toList = [] →
      dtGetSurveyResponse content =
        .jobj [("answer", .jnum 4), ("reasoning", .jstr content)]) ∧
    (∀ (s : String), searchScoreTagA s.toList = none →
      searchDigit17 false s.toList = none → extractScore s = none) := by
  constructor
  · intro content h1 h2
    unfold dtGetSurveyResponse
    rw [h1, h2]
    rfl
  · intro s h1 h2
    unfold extractScore
    rw [h1, h2]

/-- C6 witness: both fallbacks at a concrete no-integer text. -/
theorem no_integer_fallback_behavior_witness :
    jsonLoads "잘 모르겠어요" = none ∧
    findAllDigit17 false "잘 모르겠어요".toList = [] ∧
    dtGetSurveyResponse "잘 모르겠어요" =
      .jobj [("answer", .jnum 4), ("reasoning", .jstr "잘 모르겠어요")] ∧
    searchScoreTagA "잘 모르겠어요".toList = none ∧
    searchDigit17 false "잘 모르겠어요".toList = none ∧
    extractScore "잘 모르겠어요" = none :=
  ⟨rfl, rfl, no_integer_fallback_behavior.1 "잘 모르겠어요" rfl rfl,
   rfl, rfl, no_integer_fallback_behavior.2 "잘 모르겠어요" rfl rfl⟩

/-- C6 counterexample: on no-integer raw text the cited `_extract_score`
returns null rather than the midpoint 4, and the digital-twin record
carries the raw text as reasoning with no "no numeric value found"
annotation — its complete output is shown. -/
theorem no_integer_not_midpoint_annotated :
    extractScore "잘 모르겠습니다" = none ∧ (none : Option Nat) ≠ some 4 ∧
    dtGetSurveyResponse "잘 모르겠습니다" =
      .jobj [("answer", .jnum 4), ("reasoning", .jstr "잘 모르겠습니다")] :=
  ⟨by decide, by decide, rfl⟩

/-- C7 (amended): for every non-Likert question type — MultipleChoice
included — the enhanced parser returns the raw text unchanged as both
response and reasoning, with no score: it performs no option matching (the
options are not even passed to it). -/
theorem multiple_choice_raw_passthrough :
    ∀ (s questionType : String) (smin smax : Int), questionType ≠ "likert" →
      parseSurveyResponse s questionType smin smax =
        { response := s, score := none, reasoning := s } := by
  intro s qt smin smax h
  unfold parseSurveyResponse
  rw [if_neg h]

/-- C7 witness: the amended behaviour at the scenario's input. -/
theorem multiple_choice_raw_passthrough_witness :
    "multiple_choice" ≠ "likert" ∧
    parseSurveyResponse "Performance matters most to me" "multiple_choice" 1 7 =
      { response := "Performance matters most to me", score := none,
        reasoning := "Performance matters most to me" } :=
  ⟨by decide,
   multiple_choice_raw_passthrough "Performance matters most to me" "multiple_choice" 1 7
     (by decide)⟩

/-- C7 counterexample: scenario C fails — with options
`["price","performance","design"]` and raw text
`"Performance matters most to me"` the parser yields the raw text itself
with no score, not `"performance"`. -/
theorem multiple_choice_no_option_match :
    parseSurveyResponse "Performance matters most to me" "multiple_choice" 1 7 =
      { response := "Performance matters most to me", score := none,
        reasoning := "Performance matters most to me" } ∧
    "Performance matters most to me" ≠ "performance" ∧
    ("performance" ∈ ["price", "performance", "design"] ∧
      (parseSurveyResponse "Performance matters most to me" "multiple_choice" 1 7).response ∉
        ["price", "performance", "design"]) := by
  refine ⟨by decide, by decide, by decide, by decide⟩

/-- Updating the entries holding a given key commutes with lookup. -/
theorem lookupQ_map_update (es : List (String × QGroup)) (qid : String) (f : QGroup → QGroup)
    (q : String) :
    lookupQ q (es.map (fun e => if e.1 = qid then (e.1, f e.2) else e)) =
      (if q = qid then (lookupQ q es).map f else lookupQ q es) := by
  induction es with
  | nil => by_cases hq : q = qid <;> simp [lookupQ, hq]
  | cons e es ih =>
    obtain ⟨k, g⟩ := e
    rw [List.map_cons]
    have hhead : (if (k, g).1 = qid then ((k, g).1, f (k, g).2) else (k, g)) =
        if k = qid then (k, f g) else (k, g) := rfl
    rw [hhead]
    by_cases hk : k = qid
    · rw [if_pos hk]
      by_cases hkq : k = q
      · have hq2 : q = qid := by rw [← hkq, hk]
        simp [lookupQ, hkq, hq2]
      · have hq2 : ¬q = qid := fun h => hkq (hk.trans h.symm)
        simp [lookupQ, hkq, hq2, ih]
    · rw [if_neg hk]
      by_cases hkq : k = q
      · have hq2 : ¬q = qid := fun h => hk (hkq.trans h)
        simp [lookupQ, hkq, hq2]
      · simp [lookupQ, hkq, ih]

/-- Lookup in a list extended on the right by one pair. -/
theorem lookupQ_append_single (es : List (String × QGroup)) (k0 : String) (g0 : QGroup)
    (q : String) :
    lookupQ q (es ++ [(k0, g0)]) =
      (match lookupQ q es with
       | some g => some g
       | none => if k0 = q then some g0 else none) := by
  induction es with
  | nil => simp [lookupQ]
  | cons e es ih =>
    obtain ⟨k, g⟩ := e
    by_cases hkq : k = q
    · subst hkq
      simp [lookupQ]
    · simp [lookupQ, hkq, ih]

/-- The key-membership test of the grouping loop agrees with lookup. -/
theorem any_key_eq_lookupQ_isSome (es : List (String × QGroup)) (qid : String) :
    es.any (fun e => decide (e.1 = qid)) = (lookupQ qid es).isSome := by
  induction es with
  | nil => simp [lookupQ]
  | cons e es ih =>
    obtain ⟨k, g⟩ := e
    by_cases hk : k = qid
    · subst hk
      simp [lookupQ]
    · simp [lookupQ, hk, ih]

/-- A successful lookup produces a member of the list. -/
theorem lookupQ_mem_pairs (es : List (String × QGroup)) (q : String) (g : QGroup)
    (h : lookupQ q es = some g) : (q, g) ∈ es := by
  induction es with
  | nil => simp [lookupQ] at h
  | cons e es ih =>
    obtain ⟨k, g2⟩ := e
    by_cases hkq : k = q
    · subst hkq
      simp [lookupQ] at h
      simp [h]
    · have h2 : lookupQ q ((k, g2) :: es) = lookupQ q es := by
        simp [lookupQ, hkq]
      rw [h2] at h
      exact List.mem_cons_of_mem _ (ih h)

theorem scoresOf_append_single (rs : List RespRec) (r : RespRec) (q : String) :
    scoresOf (rs ++ [r]) q =
      scoresOf rs q ++ (if r.questionId = q then r.score.toList else []) := by
  unfold scoresOf
  rw [List.filter_append, List.filterMap_append]
  congr 1
  by_cases hq : r.questionId = q
  · cases hs : r.score <;> simp [List.filter, hq, hs]
  · simp [List.filter, hq]

theorem nullErrorsOf_append_single (rs : List RespRec) (r : RespRec) (q : String) :
    nullErrorsOf (rs ++ [r]) q =
      nullErrorsOf rs q + (if r.questionId = q ∧ r.score.isNone then 1 else 0) := by
  unfold nullErrorsOf
  rw [List.filter_append, List.filter_append, List.length_append]
  congr 1
  by_cases hq : r.questionId = q
  · cases hs : r.score <;> simp [List.filter, hq, hs]
  · simp [List.filter, hq]

/-- A question id that occurs in no record collects no scores and no
errors. -/
theorem scoresOf_eq_nil_of_not_any (rs : List RespRec) (q : String)
    (h : rs.any (fun r => decide (r.questionId = q)) = false) :
    scoresOf rs q = [] ∧ nullErrorsOf rs q = 0 := by
  have hf : rs.filter (fun r => decide (r.questionId = q)) = [] := by
    rw [List.filter_eq_nil]
    intro a ha
    simpa using List.any_eq_false.mp h a ha
  unfold scoresOf nullErrorsOf
  rw [hf]
  exact ⟨rfl, rfl⟩

theorem groupResponses_append (rs : List RespRec) (r : RespRec) :
    groupResponses (rs ++ [r]) = groupStep (groupResponses rs) r := by
  unfold groupResponses
  rw [List.foldl_append]
  rfl

/-- The grouping loop of `analyze_survey_results`, characterised: a
question id has an entry exactly when some record carries it, and that
entry's scores and error tally are exactly the non-null scores (in record
order) and the null-record count of that question. -/
theorem groupResponses_char (rs : List RespRec) : ∀ q : String,
    ((lookupQ q (groupResponses rs)).isSome =
      rs.any (fun r => decide (r.questionId = q))) ∧
    (∀ g, lookupQ q (groupResponses rs) = some g →
      g.scores = scoresOf rs q ∧ g.errors = nullErrorsOf rs q) := by
  induction rs using List.reverseRecOn with
  | nil =>
    intro q
    constructor
    · simp [groupResponses, lookupQ]
    · intro g hg
      simp [groupResponses, lookupQ] at hg
  | append_singleton rs r ih =>
    intro q
    rw [groupResponses_append]
    unfold groupStep
    by_cases hmem : (groupResponses rs).any (fun e => decide (e.1 = r.questionId)) = true
    · rw [if_pos hmem]
      rw [lookupQ_map_update (groupResponses rs) r.questionId (fun g2 => applyRec g2 r.score) q]
      by_cases hq : q = r.questionId
      · rw [if_pos hq]
        obtain ⟨g0, hg0⟩ : ∃ g0, lookupQ q (groupResponses rs) = some g0 := by
          rw [any_key_eq_lookupQ_isSome] at hmem
          rw [hq]
          exact Option.isSome_iff_exists.mp hmem
        rw [hg0]
        constructor
        · simp [List.any_append, hq]
        · intro g hg
          have hgg : g = applyRec g0 r.score := by
            injection hg with h2
            exact h2.symm
          subst hgg
          obtain ⟨hsc, her⟩ := (ih q).2 g0 hg0
          rw [scoresOf_append_single, nullErrorsOf_append_single]
          constructor
          · cases hs : r.score <;> simp [applyRec, hs, hsc, hq]
          · cases hs : r.score <;> simp [applyRec, hs, her, hq]
      · rw [if_neg hq]
        constructor
        · rw [(ih q).1]
          simp [List.any_append, Ne.symm hq]
        · intro g hg
          obtain ⟨hsc, her⟩ := (ih q).2 g hg
          rw [scoresOf_append_single, nullErrorsOf_append_single]
          simp [hsc, her, Ne.symm hq]
    · rw [if_neg hmem]
      rw [lookupQ_append_single]
      have hanyfalse : (groupResponses rs).any (fun e => decide (e.1 = r.questionId)) = false :=
        Bool.not_eq_true _ |>.mp hmem
      by_cases hq : q = r.questionId
      · have hnone : lookupQ q (groupResponses rs) = none := by
          rw [any_key_eq_lookupQ_isSome] at hanyfalse
          rw [hq]
          exact Option.not_isSome_iff_eq_none.mp (by simp [hanyfalse])
        have hrsany : rs.any (fun r2 => decide (r2.questionId = q)) = false := by
          rw [← (ih q).1, hnone]
          rfl
        obtain ⟨hsc0, her0⟩ := scoresOf_eq_nil_of_not_any rs q hrsany
        rw [hq] at hsc0 her0
        rw [hnone]
        constructor
        · simp [List.any_append, hq]
        · intro g hg
          rw [if_pos hq.symm] at hg
          have hgg : g = applyRec ⟨r.question, [], 0⟩ r.score := by
            injection hg with h2
            exact h2.symm
          subst hgg
          rw [scoresOf_append_single, nullErrorsOf_append_single]
          constructor
          · cases hs : r.score <;> simp [applyRec, hs, hsc0, hq]
          · cases hs : r.score <;> simp [applyRec, hs, her0, hq]
      · cases hlk : lookupQ q (groupResponses rs) with
        | some g0 =>
          constructor
          · have h1 := (ih q).1
            rw [hlk] at h1
            simp [List.any_append, Ne.symm hq, ← h1]
          · intro g hg
            have hg2 : some g0 = some g := hg
            have hgg : g0 = g := by injection hg2
            obtain ⟨hsc, her⟩ := (ih q).2 g0 hlk
            rw [← hgg]
            rw [scoresOf_append_single, nullErrorsOf_append_single]
            simp [hsc, her, Ne.symm hq]
        | none =>
          constructor
          · have h1 := (ih q).1
            rw [hlk] at h1
            simp [List.any_append, Ne.symm hq, ← h1]
          · intro g hg
            have hg2 : (if r.questionId = q then
                some (applyRec ⟨r.question, [], 0⟩ r.score) else none) = some g := hg
            rw [if_neg (Ne.symm hq)] at hg2
            cases hg2

theorem foldl_min_le_init (xs : List Int) : ∀ a : Int, xs.foldl min a ≤ a := by
  induction xs with
  | nil => intro a; simp
  | cons x xs ih =>
    intro a
    rw [List.foldl_cons]
    exact le_trans (ih (min a x)) (min_le_left a x)

theorem foldl_min_le_mem (xs : List Int) : ∀ (a v : Int), v ∈ xs → xs.foldl min a ≤ v := by
  induction xs with
  | nil => intro a v hv; simp at hv
  | cons x xs ih =>
    intro a v hv
    rw [List.foldl_cons]
    rcases List.mem_cons.mp hv with h | h
    · subst h
      exact le_trans (foldl_min_le_init xs (min a v)) (min_le_right a v)
    · exact ih _ v h

theorem foldl_min_mem (xs : List Int) : ∀ a : Int, xs.foldl min a = a ∨ xs.foldl min a ∈ xs := by
  induction xs with
  | nil => intro a; exact Or.inl rfl
  | cons x xs ih =>
    intro a
    rw [List.foldl_cons]
    rcases ih (min a x) with h | h
    · rcases min_choice a x with hm | hm
      · exact Or.inl (h.trans hm)
      · exact Or.inr (List.mem_cons.mpr (Or.inl (h.trans hm)))
    · exact Or.inr (List.mem_cons_of_mem _ h)

theorem minOf_mem (xs : List Int) (hx : xs ≠ []) : minOf xs ∈ xs := by
  cases xs with
  | nil => exact absurd rfl hx
  | cons x xs =>
    show List.foldl min x xs ∈ x :: xs
    rcases foldl_min_mem xs x with h | h
    · rw [h]; exact List.mem_cons_self x xs
    · exact List.mem_cons_of_mem _ h

theorem minOf_le (xs : List Int) : ∀ v ∈ xs, minOf xs ≤ v := by
  intro v hv
  cases xs with
  | nil => simp at hv
  | cons x xs =>
    show List.foldl min x xs ≤ v
    rcases List.mem_cons.mp hv with h | h
    · subst h; exact foldl_min_le_init xs v
    · exact foldl_min_le_mem xs x v h

theorem foldl_max_init_le (xs : List Int) : ∀ a : Int, a ≤ xs.foldl max a := by
  induction xs with
  | nil => intro a; simp
  | cons x xs ih =>
    intro a
    rw [List.foldl_cons]
    exact le_trans (le_max_left a x) (ih (max a x))

theorem foldl_max_mem_le (xs : List Int) : ∀ (a v : Int), v ∈ xs → v ≤ xs.foldl max a := by
  induction xs with
  | nil => intro a v hv; simp at hv
  | cons x xs ih =>
    intro a v hv
    rw [List.foldl_cons]
    rcases List.mem_cons.mp hv with h | h
    · subst h
      exact le_trans (le_max_right a v) (foldl_max_init_le xs (max a v))
    · exact ih _ v h

theorem foldl_max_mem (xs : List Int) : ∀ a : Int, xs.foldl max a = a ∨ xs.foldl max a ∈ xs := by
  induction xs with
  | nil => intro a; exact Or.inl rfl
  | cons x xs ih =>
    intro a
    rw [List.foldl_cons]
    rcases ih (max a x) with h | h
    · rcases max_choice a x with hm | hm
      · exact Or.inl (h.trans hm)
      · exact Or.inr (List.mem_cons.mpr (Or.inl (h.trans hm)))
    · exact Or.inr (List.mem_cons_of_mem _ h)

theorem maxOf_mem (xs : List Int) (hx : xs ≠ []) : maxOf xs ∈ xs := by
  cases xs with
  | nil => exact absurd rfl hx
  | cons x xs =>
    show List.foldl max x xs ∈ x :: xs
    rcases foldl_max_mem xs x with h | h
    · rw [h]; exact List.mem_cons_self x xs
    · exact List.mem_cons_of_mem _ h

theorem maxOf_ge (xs : List Int) : ∀ v ∈ xs, v ≤ maxOf xs := by
  intro v hv
  cases xs with
  | nil => simp at hv
  | cons x xs =>
    show v ≤ List.foldl max x xs
    rcases List.mem_cons.mp hv with h | h
    · subst h; exact foldl_max_init_le xs v
    · exact foldl_max_mem_le xs x v h

/-- Looking up a value 1..7 in the `range(1, 8)` distribution table yields
its occurrence count. -/
theorem dist_lookupD (scores : List Int) (v : Int) (h1 : 1 ≤ v) (h7 : v ≤ 7) :
    lookupD v ((List.range 7).map (fun k => ((k : Int) + 1, scores.count ((k : Int) + 1)))) =
      some (scores.count v) := by
  interval_cases v <;> rfl

/-- C9: for every record list, each question's aggregate statistics are
computed exactly over that question's records with a non-null score (in
record order): count, mean, min and max are the length, arithmetic mean,
minimum and maximum of precisely those scores, null records contribute
only to the error tally, the statistics block is absent exactly when the
question has no non-null score, and (for in-range scores) the
distribution maps each response value to its occurrence count. -/
theorem analyze_results_statistics (rs : List RespRec) (q : String) (g : QGroup)
    (hg : lookupQ q (groupResponses rs) = some g)
    (hrange : ∀ v ∈ scoresOf rs q, 1 ≤ v ∧ v ≤ 7) :
    (q, g, if g.scores.isEmpty then none else some (mkQStats g.scores)) ∈
      analyzeSurveyResults rs ∧
    g.scores = scoresOf rs q ∧
    g.errors = nullErrorsOf rs q ∧
    ((if g.scores.isEmpty then (none : Option QStats) else some (mkQStats g.scores)) = none ↔
      scoresOf rs q = []) ∧
    (∀ st, (if g.scores.isEmpty then (none : Option QStats) else some (mkQStats g.scores)) =
        some st →
      st.count = (scoresOf rs q).length ∧
      st.mean = ((scoresOf rs q).sum : ℚ) / ((scoresOf rs q).length : ℚ) ∧
      st.minv ∈ scoresOf rs q ∧ (∀ v ∈ scoresOf rs q, st.minv ≤ v) ∧
      st.maxv ∈ scoresOf rs q ∧ (∀ v ∈ scoresOf rs q, v ≤ st.maxv) ∧
      (∀ v ∈ scoresOf rs q, lookupD v st.dist = some ((scoresOf rs q).count v))) := by
  obtain ⟨hsc, her⟩ := (groupResponses_char rs q).2 g hg
  have hmem : (q, g) ∈ groupResponses rs := lookupQ_mem_pairs _ q g hg
  rw [← hsc] at hrange
  refine ⟨?_, hsc, her, ?_, ?_⟩
  · unfold analyzeSurveyResults
    exact List.mem_map.mpr ⟨(q, g), hmem, rfl⟩
  · rw [← hsc]
    constructor
    · intro h
      by_cases he : g.scores.isEmpty = true
      · exact List.isEmpty_iff_eq_nil.mp he
      · rw [if_neg he] at h
        cases h
    · intro h
      rw [if_pos (List.isEmpty_iff_eq_nil.mpr h)]
  · intro st hst
    by_cases he : g.scores.isEmpty = true
    · rw [if_pos he] at hst
      cases hst
    · rw [if_neg he] at hst
      have hstv : mkQStats g.scores = st := by injection hst
      have hne : g.scores ≠ [] := fun h0 => he (List.isEmpty_iff_eq_nil.mpr h0)
      rw [← hstv, ← hsc]
      unfold mkQStats
      refine ⟨rfl, rfl, minOf_mem _ hne, ?_, maxOf_mem _ hne, ?_, ?_⟩
      · intro v hv
        exact minOf_le _ v hv
      · intro v hv
        exact maxOf_ge _ v hv
      · intro v hv
        obtain ⟨hv1, hv7⟩ := hrange v hv
        exact dist_lookupD g.scores v hv1 hv7

/-- C9 witness: the Q1 group of four concrete records — scores [5, 6], one
null record — with its statistics block. -/
theorem analyze_results_statistics_witness :
    lookupQ "Q1" (groupResponses wResponses) = some wQ1Group ∧
    (∀ v ∈ scoresOf wResponses "Q1", 1 ≤ v ∧ v ≤ 7) ∧
    (("Q1", wQ1Group,
        if wQ1Group.scores.isEmpty then none else some (mkQStats wQ1Group.scores)) ∈
      analyzeSurveyResults wResponses ∧
    wQ1Group.scores = scoresOf wResponses "Q1" ∧
    wQ1Group.errors = nullErrorsOf wResponses "Q1" ∧
    ((if wQ1Group.scores.isEmpty then (none : Option QStats)
        else some (mkQStats wQ1Group.scores)) = none ↔ scoresOf wResponses "Q1" = []) ∧
    (∀ st, (if wQ1Group.scores.isEmpty then (none : Option QStats)
        else some (mkQStats wQ1Group.scores)) = some st →
      st.count = (scoresOf wResponses "Q1").length ∧
      st.mean = ((scoresOf wResponses "Q1").sum : ℚ) / ((scoresOf wResponses "Q1").length : ℚ) ∧
      st.minv ∈ scoresOf wResponses "Q1" ∧ (∀ v ∈ scoresOf wResponses "Q1", st.minv ≤ v) ∧
      st.maxv ∈ scoresOf wResponses "Q1" ∧ (∀ v ∈ scoresOf wResponses "Q1", v ≤ st.maxv) ∧
      (∀ v ∈ scoresOf wResponses "Q1", lookupD v st.dist =
        some ((scoresOf wResponses "Q1").count v)))) :=
  ⟨by decide, by decide,
   analyze_results_statistics wResponses "Q1" wQ1Group (by decide) (by decide)⟩

end SurveySim
